import Mathlib

/-!
# Verification of the trezor-api wire framing and client state machine

A shallow embedding, in Lean 4, of the host-side Trezor client library:
the V1/V2 chunk framers (`src/transport/protocol.rs`), the HID link
(`src/transport/hid.rs`), the call/response dispatch and projections
(`src/client.rs`), the transaction-signing coroutine
(`src/flows/sign_tx.rs`) and the signature parsing helper
(`src/utils.rs`).  Machine integers are modelled as `Nat` with explicit
`% 2^w` where the code truncates; fallible Rust code returns
`Except`/`PRes`; the `Link` trait is modelled by explicit lists of
64-byte chunks.
-/

namespace Trezor

/-! ## Byte-order helpers (the `byteorder` crate calls used by the code) -/

/-- `BigEndian::write_u16(buf, n as u16)`: the two big-endian bytes of `n % 2^16`. -/
def writeU16BE (n : Nat) : List Nat :=
  [n / 256 % 256, n % 256]

/-- `BigEndian::write_u32(buf, n as u32)`: the four big-endian bytes of `n % 2^32`. -/
def writeU32BE (n : Nat) : List Nat :=
  [n / 16777216 % 256, n / 65536 % 256, n / 256 % 256, n % 256]

/-- `BigEndian::read_u16`: recombine the first two bytes big-endian. -/
def readU16BE : List Nat → Nat
  | b0 :: b1 :: _ => b0 * 256 + b1
  | _ => 0

/-- `BigEndian::read_u32`: recombine the first four bytes big-endian. -/
def readU32BE : List Nat → Nat
  | b0 :: b1 :: b2 :: b3 :: _ => ((b0 * 256 + b1) * 256 + b2) * 256 + b3
  | _ => 0

/-- `chunk.resize(64, 0)`: pad a (never longer) buffer with zero bytes up to `n`. -/
def padTo (n : Nat) (l : List Nat) : List Nat :=
  l ++ List.replicate (n - l.length) 0

/-! ## The transport error type (`src/transport/error.rs`), restricted to the
variants the framing layer can produce. -/

inductive Error where
  | DeviceReadTimeout
  | DeviceBadMagic
  | DeviceBadSessionId
  | DeviceUnexpectedSequenceNumber
  | InvalidMessageType (id : Nat)
  | UnexpectedChunkSizeFromDevice (size : Nat)
  deriving DecidableEq, Repr

/-- `ProtoMessage(MessageType, Vec<u8>)` from `src/transport/mod.rs`: the raw
numeric message-type tag plus opaque payload bytes. -/
structure ProtoMessage where
  messageType : Nat
  payload : List Nat
  deriving DecidableEq, Repr

/-- Outcome of an operation that may `assert!`-panic besides failing:
`panic` models a triggered `assert!`/`unimplemented!`. -/
inductive PRes (α : Type) where
  | panic
  | error (e : Error)
  | ok (a : α)
  deriving DecidableEq, Repr

namespace ProtocolV1

/-- The chunking loop of `ProtocolV1::write`: each chunk is `0x3f` followed by
up to 63 buffer bytes, zero-padded to 64 bytes. -/
def chunks (data : List Nat) : List (List Nat) :=
  if h : data = [] then []
  else padTo 64 (63 :: data.take 63) :: chunks (data.drop 63)
termination_by data.length
decreasing_by
  simp only [List.length_drop]
  have : 0 < data.length := List.length_pos.mpr h
  omega

/-- `ProtocolV1::write`: buffer `0x23 0x23 ∥ MT[2] ∥ LEN[4] ∥ payload`
emitted in `0x3f`-prefixed 64-byte chunks. -/
def write (m : ProtoMessage) : List (List Nat) :=
  chunks (35 :: 35 :: (writeU16BE m.messageType ++ (writeU32BE m.payload.length ++ m.payload)))

/-- The reassembly loop of `ProtocolV1::read`: keep reading chunks while the
accumulated payload is shorter than the declared length; every continuation
chunk must start with `0x3f`; finally truncate to the declared length. -/
def readLoop (dataLength : Nat) (data : List Nat) (chunkStream : List (List Nat)) :
    Except Error (List Nat) :=
  if dataLength ≤ data.length then .ok (data.take dataLength)
  else
    match chunkStream with
    | [] => .error .DeviceReadTimeout
    | c :: rest =>
      if c.getD 0 0 ≠ 63 then .error .DeviceBadMagic
      else readLoop dataLength (data ++ c.drop 1) rest

/-- `ProtocolV1::read`, over the list of chunks the link delivers.  The
parameter `kt` decides membership in the external generated `MessageType`
enumeration (`MessageType::from_i32`), whose schema is not part of the core. -/
def read (kt : Nat → Bool) (chunkStream : List (List Nat)) : Except Error ProtoMessage :=
  match chunkStream with
  | [] => .error .DeviceReadTimeout
  | c :: rest =>
    if c.getD 0 0 ≠ 63 ∨ c.getD 1 0 ≠ 35 ∨ c.getD 2 0 ≠ 35 then .error .DeviceBadMagic
    else
      let mtid := readU16BE (c.drop 3)
      if kt mtid then
        (readLoop (readU32BE (c.drop 5)) (c.drop 9) rest).map (fun data => ⟨mtid, data⟩)
      else .error (.InvalidMessageType mtid)

end ProtocolV1

namespace ProtocolV2

/-- The continuation-chunk loop of `ProtocolV2::write` (`seq ≥ 0` branch):
header `[0x01, SID[4], SEQ[4]]` — note the magic byte is `0x01`, exactly as in
the source — followed by up to 55 buffer bytes, zero-padded to 64. -/
def writeCont (sid : Nat) (seq : Nat) (data : List Nat) : List (List Nat) :=
  if h : data = [] then []
  else
    padTo 64 (1 :: (writeU32BE sid ++ (writeU32BE seq ++ data.take 55))) ::
      writeCont sid (seq + 1) (data.drop 55)
termination_by data.length
decreasing_by
  simp only [List.length_drop]
  have : 0 < data.length := List.length_pos.mpr h
  omega

/-- The chunk sequence produced by `ProtocolV2::write`: buffer
`MT[4] ∥ LEN[4] ∥ payload`; first chunk header `[0x01, SID[4]]`, continuation
headers `[0x01, SID[4], SEQ[4]]` with `SEQ = 0, 1, …`. -/
def writeChunks (sid : Nat) (m : ProtoMessage) : List (List Nat) :=
  let data := writeU32BE m.messageType ++ (writeU32BE m.payload.length ++ m.payload)
  padTo 64 (1 :: (writeU32BE sid ++ data.take 59)) :: writeCont sid 0 (data.drop 59)

/-- `ProtocolV2::write` including its `assert!(self.session_id != 0)` guard. -/
def write (sid : Nat) (m : ProtoMessage) : PRes (List (List Nat)) :=
  if sid = 0 then .panic else .ok (writeChunks sid m)

/-- The reassembly loop of `ProtocolV2::read`: continuation chunks must start
`0x02 ∥ SID[4] ∥ SEQ[4]` with `SEQ` counting up from 0 (compared after the
`as u32` cast); payload bytes start at offset 9. -/
def readLoop (sid : Nat) (dataLength : Nat) (seq : Nat) (data : List Nat)
    (chunkStream : List (List Nat)) : Except Error (List Nat) :=
  if dataLength ≤ data.length then .ok (data.take dataLength)
  else
    match chunkStream with
    | [] => .error .DeviceReadTimeout
    | c :: rest =>
      if c.getD 0 0 ≠ 2 then .error .DeviceBadMagic
      else if readU32BE (c.drop 1) ≠ sid then .error .DeviceBadSessionId
      else if readU32BE (c.drop 5) ≠ seq % 4294967296 then .error .DeviceUnexpectedSequenceNumber
      else readLoop sid dataLength (seq + 1) (data ++ c.drop 9) rest

/-- `ProtocolV2::read` including its `assert!(self.session_id != 0)` guard.
First chunk: `0x01 ∥ SID[4] ∥ MT[4] ∥ LEN[4] ∥ payload…`; `kt` decides
membership in the external `MessageType` enumeration. -/
def read (kt : Nat → Bool) (sid : Nat) (chunkStream : List (List Nat)) : PRes ProtoMessage :=
  if sid = 0 then .panic
  else
    match chunkStream with
    | [] => .error .DeviceReadTimeout
    | c :: rest =>
      if c.getD 0 0 ≠ 1 then .error .DeviceBadMagic
      else if readU32BE (c.drop 1) ≠ sid then .error .DeviceBadSessionId
      else
        let mtid := readU32BE (c.drop 5)
        if kt mtid then
          match readLoop sid (readU32BE (c.drop 9)) 0 (c.drop 13) rest with
          | .ok data => .ok ⟨mtid, data⟩
          | .error e => .error e
        else .error (.InvalidMessageType mtid)

/-- The single chunk sent by `ProtocolV2::session_begin`: `[0x03, 0, …]`. -/
def sessionBeginChunk : List Nat := padTo 64 [3]

/-- `ProtocolV2::session_begin` response handling: the reply must begin `0x03`;
the following four bytes are stored as the new session id. -/
def session_begin (resp : List Nat) : Except Error Nat :=
  if resp.getD 0 0 ≠ 3 then .error .DeviceBadMagic
  else .ok (readU32BE (resp.drop 1))

/-- The single chunk sent by `ProtocolV2::session_end`: `[0x04, SID[4], 0, …]`. -/
def sessionEndChunk (sid : Nat) : List Nat := padTo 64 (4 :: writeU32BE sid)

/-- `ProtocolV2::session_end`: asserts a live session, requires an `0x04`
reply, and clears the stored session id (returns the new stored value). -/
def session_end (sid : Nat) (resp : List Nat) : PRes Nat :=
  if sid = 0 then .panic
  else if resp.getD 0 0 ≠ 4 then .error .DeviceBadMagic
  else .ok 0

end ProtocolV2

/-! ## HID link (`src/transport/hid.rs`) -/

/-- The two negotiated HID link sub-variants. -/
inductive HidVersion where
  | V1
  | V2
  deriving DecidableEq, Repr

namespace HidLink

/-- `HidLink::write_chunk`: asserts the chunk is exactly 64 bytes
(`none` models the triggered assertion) and, on a V2-HID link, prepends the
`0x00` report-id byte before handing the bytes to the wire. -/
def write_chunk (v : HidVersion) (chunk : List Nat) : Option (List Nat) :=
  if chunk.length = 64 then
    some (match v with
      | .V1 => chunk
      | .V2 => 0 :: chunk)
  else none

end HidLink

/-! ## Client layer (`src/client.rs`) -/

/-- Modelled from the spec: message-type tags of the external generated
schema (spec §6), restricted to the tags the embedded client code
distinguishes.  The generated `protos::MessageType` enumeration itself is not
part of the core sources. -/
inductive MessageType where
  | Initialize
  | Features
  | Ping
  | Success
  | Failure
  | ButtonRequest
  | ButtonAck
  | PinMatrixRequest
  | PinMatrixAck
  | PassphraseRequest
  | PassphraseAck
  | PassphraseStateRequest
  | PassphraseStateAck
  | EntropyRequest
  | EntropyAck
  | TxRequest
  | TxAck
  | PublicKey
  | Address
  | MessageSignature
  deriving DecidableEq, Repr

/-- The fields of a `protos::Failure` payload that the client surfaces. -/
structure FailureMsg where
  code : Nat
  message : String
  deriving DecidableEq, Repr

/-- `client::InteractionType`: the kinds of user interaction the device can
request. -/
inductive InteractionType where
  | Button
  | PinMatrix
  | Passphrase
  deriving DecidableEq, Repr

/-- `TxRequest_RequestType` of the external schema (spec §3). -/
inductive TxRequestType where
  | TXINPUT
  | TXOUTPUT
  | TXMETA
  | TXEXTRADATA
  | TXFINISHED
  deriving DecidableEq, Repr

/-- The `details` block of a `protos::TxRequest` (optional fields modelled as
`Option`). -/
structure TxRequestDetails where
  request_index : Option Nat
  tx_hash : Option (List Nat)
  deriving DecidableEq, Repr

/-- The `serialized` block of a `protos::TxRequest`. -/
structure TxRequestSerialized where
  signature_index : Option Nat
  signature : Option (List Nat)
  serialized_tx : Option (List Nat)
  deriving DecidableEq, Repr

/-- A `protos::TxRequest` message. -/
structure TxRequestMsg where
  request_type : TxRequestType
  details : Option TxRequestDetails
  serialized : Option TxRequestSerialized
  deriving DecidableEq, Repr

/-- The client-side error type: the variants of `error::Error` constructed by
`src/client.rs` and `src/flows/sign_tx.rs`. -/
inductive ClientError where
  | TransportSendMessage (e : Error)
  | TransportReceiveMessage (e : Error)
  | FailureResponse (f : FailureMsg)
  | UnexpectedMessageType (mt : MessageType)
  | UnexpectedInteractionRequest (t : InteractionType)
  | InvalidEntropy
  | MalformedTxRequest (req : TxRequestMsg)
  | TxRequestInvalidIndex (i : Nat)
  | TxRequestUnknownTxid (txid : List Nat)
  | PsbtMissingInputTx (txid : List Nat)
  | InvalidPsbt (msg : String)
  deriving DecidableEq, Repr

/-- Which unconditional variant of `TrezorResponse` a `Trezor::call` built. -/
inductive DispatchResult where
  | Ok
  | Failure
  | ButtonRequest
  | PinMatrixRequest
  | PassphraseRequest
  deriving DecidableEq, Repr

namespace Client

/-- The response dispatch of `Trezor::call`: a response of the expected type
`R::message_type()` becomes `Ok`; otherwise `Failure`, `ButtonRequest`,
`PinMatrixRequest` and `PassphraseRequest` become the corresponding
interaction variants, and any other message type is the error
`UnexpectedMessageType`. -/
def dispatch (expected : MessageType) (respType : MessageType) :
    Except ClientError DispatchResult :=
  if respType = expected then .ok .Ok
  else
    match respType with
    | .Failure => .ok .Failure
    | .ButtonRequest => .ok .ButtonRequest
    | .PinMatrixRequest => .ok .PinMatrixRequest
    | .PassphraseRequest => .ok .PassphraseRequest
    | mtype => .error (.UnexpectedMessageType mtype)

end Client

/-- The fields of a `protos::ButtonRequest` the client exposes. -/
structure ButtonRequestMsg where
  code : Nat
  data : String
  deriving DecidableEq, Repr

/-- The fields of a `protos::PinMatrixRequest` the client exposes. -/
structure PinMatrixRequestMsg where
  requestType : Nat
  deriving DecidableEq, Repr

/-- The fields of a `protos::PassphraseRequest` the client exposes. -/
structure PassphraseRequestMsg where
  on_device : Bool
  deriving DecidableEq, Repr

/-- `client::TrezorResponse<T, R>`: the five variants of the response of one
`call`, with the carried interaction request messages. -/
inductive TrezorResponse (T : Type) where
  | Ok (value : T)
  | Failure (msg : FailureMsg)
  | ButtonRequest (msg : ButtonRequestMsg)
  | PinMatrixRequest (msg : PinMatrixRequestMsg)
  | PassphraseRequest (msg : PassphraseRequestMsg)
  deriving DecidableEq, Repr

namespace TrezorResponse

variable {T : Type}

/-- `TrezorResponse::ok()`. -/
def ok (r : TrezorResponse T) : Except ClientError T :=
  match r with
  | .Ok m => .ok m
  | .Failure m => .error (.FailureResponse m)
  | .ButtonRequest _ => .error (.UnexpectedInteractionRequest .Button)
  | .PinMatrixRequest _ => .error (.UnexpectedInteractionRequest .PinMatrix)
  | .PassphraseRequest _ => .error (.UnexpectedInteractionRequest .Passphrase)

/-- `TrezorResponse::button_request()`; `rType` is `R::message_type()`. -/
def button_request (rType : MessageType) (r : TrezorResponse T) :
    Except ClientError ButtonRequestMsg :=
  match r with
  | .ButtonRequest m => .ok m
  | .Ok _ => .error (.UnexpectedMessageType rType)
  | .Failure m => .error (.FailureResponse m)
  | .PinMatrixRequest _ => .error (.UnexpectedInteractionRequest .PinMatrix)
  | .PassphraseRequest _ => .error (.UnexpectedInteractionRequest .Passphrase)

/-- `TrezorResponse::pin_matrix_request()`; `rType` is `R::message_type()`. -/
def pin_matrix_request (rType : MessageType) (r : TrezorResponse T) :
    Except ClientError PinMatrixRequestMsg :=
  match r with
  | .PinMatrixRequest m => .ok m
  | .Ok _ => .error (.UnexpectedMessageType rType)
  | .Failure m => .error (.FailureResponse m)
  | .ButtonRequest _ => .error (.UnexpectedInteractionRequest .Button)
  | .PassphraseRequest _ => .error (.UnexpectedInteractionRequest .Passphrase)

/-- `TrezorResponse::passphrase_request()`; `rType` is `R::message_type()`. -/
def passphrase_request (rType : MessageType) (r : TrezorResponse T) :
    Except ClientError PassphraseRequestMsg :=
  match r with
  | .PassphraseRequest m => .ok m
  | .Ok _ => .error (.UnexpectedMessageType rType)
  | .Failure m => .error (.FailureResponse m)
  | .ButtonRequest _ => .error (.UnexpectedInteractionRequest .Button)
  | .PinMatrixRequest _ => .error (.UnexpectedInteractionRequest .PinMatrix)

end TrezorResponse

namespace EntropyRequest

/-- `EntropyRequest::ack_entropy`: demands exactly 32 bytes of entropy; on
success it writes one `EntropyAck` message carrying the bytes and dispatches
the device's next response (`Success` expected); otherwise it returns
`InvalidEntropy` and writes nothing.  The first component is the list of
messages written to the transport. -/
def ack_entropy (entropy : List Nat) (respType : MessageType) :
    List (MessageType × List Nat) × Except ClientError DispatchResult :=
  if entropy.length ≠ 32 then ([], .error .InvalidEntropy)
  else ([(.EntropyAck, entropy)], Client.dispatch .Success respType)

end EntropyRequest

/-! ## Bitcoin data model (the external `bitcoin`/`psbt` crates, spec §3/§4.4)

Only the fields the signing flow reads are modelled.  The script
classification predicates (`Script::is_p2pkh` …) belong to the external
bitcoin library and are modelled as precomputed fields of the script value. -/

/-- A script together with the external library's classification of it. -/
structure Script where
  bytes : List Nat
  is_p2pkh : Bool
  is_p2sh : Bool
  is_v0_p2wpkh : Bool
  is_v0_p2wsh : Bool
  is_op_return : Bool
  deriving DecidableEq, Repr

/-- A transaction outpoint: referenced txid (32 bytes, internal order) and
output index. -/
structure OutPoint where
  txid : List Nat
  vout : Nat
  deriving DecidableEq, Repr

/-- A transaction input. -/
structure TxIn where
  previous_output : OutPoint
  script_sig : Script
  sequence : Nat
  deriving DecidableEq, Repr

/-- A transaction output. -/
structure TxOut where
  value : Nat
  script_pubkey : Script
  deriving DecidableEq, Repr

/-- A bitcoin transaction (the fields the flow reads). -/
structure Transaction where
  version : Int
  lock_time : Nat
  input : List TxIn
  output : List TxOut
  deriving DecidableEq, Repr

/-- A PSBT per-input map: optional utxo data, scripts and HD keypaths
(each keypath a list of u32 child numbers). -/
structure PsbtInput where
  non_witness_utxo : Option Transaction
  witness_utxo : Option TxOut
  hd_keypaths : List (List Nat)
  redeem_script : Option Script
  witness_script : Option Script
  deriving DecidableEq, Repr

/-- A PSBT per-output map. -/
structure PsbtOutput where
  hd_keypaths : List (List Nat)
  redeem_script : Option Script
  witness_script : Option Script
  deriving DecidableEq, Repr

/-- A partially signed transaction. -/
structure Psbt where
  unsigned_tx : Transaction
  inputs : List PsbtInput
  outputs : List PsbtOutput
  deriving DecidableEq, Repr

/-- The bitcoin network constant (the variants of the external enum). -/
inductive Network where
  | Bitcoin
  | Testnet
  | Regtest
  deriving DecidableEq, Repr

/-! ## `src/utils.rs` helpers used by the signing flow -/

/-- `utils::from_rev_bytes`: reverse the byte order and parse as a 32-byte
hash (`sha256d::Hash::from_slice` fails on any other length). -/
def from_rev_bytes (rev_bytes : List Nat) : Option (List Nat) :=
  if rev_bytes.length = 32 then some rev_bytes.reverse else none

/-- `utils::to_rev_bytes`: the reverse byte order of a 32-byte hash. -/
def to_rev_bytes (hash : List Nat) : List Nat := hash.reverse

/-- `utils::psbt_find_input`: the PSBT input whose unsigned-tx input refers to
the given txid (first match). -/
def psbt_find_input (psbt : Psbt) (txid : List Nat) : Except ClientError PsbtInput :=
  match psbt.unsigned_tx.input.findIdx? (fun i => i.previous_output.txid = txid) with
  | none => .error (.TxRequestUnknownTxid txid)
  | some idx =>
    match psbt.inputs[idx]? with
    | none => .error (.TxRequestInvalidIndex idx)
    | some inp => .ok inp

/-! ## The `TxAck` payloads built by the signing flow -/

/-- `TxAck_TransactionType_TxInputType`, with optional fields as `Option`. -/
inductive InputScriptType where
  | SPENDADDRESS
  | SPENDWITNESS
  | SPENDP2SHWITNESS
  | EXTERNAL
  deriving DecidableEq, Repr

structure TxInputType where
  prev_hash : List Nat
  prev_index : Nat
  script_sig : List Nat
  sequence : Nat
  address_n : Option (List Nat)
  script_type : Option InputScriptType
  amount : Option Nat
  deriving DecidableEq, Repr

inductive OutputScriptType where
  | PAYTOADDRESS
  | PAYTOOPRETURN
  | PAYTOP2SHWITNESS
  | PAYTOWITNESS
  deriving DecidableEq, Repr

structure TxOutputType where
  amount : Nat
  script_type : OutputScriptType
  address : Option String
  address_n : Option (List Nat)
  op_return_data : Option (List Nat)
  deriving DecidableEq, Repr

structure TxOutputBinType where
  amount : Nat
  script_pubkey : List Nat
  deriving DecidableEq, Repr

/-- `TxAck_TransactionType`. -/
structure TxAckTransactionType where
  version : Option Int
  lock_time : Option Nat
  inputs_cnt : Option Nat
  outputs_cnt : Option Nat
  inputs : List TxInputType
  bin_outputs : List TxOutputBinType
  outputs : List TxOutputType
  deriving DecidableEq, Repr

/-- An empty `TxAck_TransactionType::new()`. -/
def TxAckTransactionType.empty : TxAckTransactionType :=
  ⟨none, none, none, none, [], [], []⟩

/-- A `protos::TxAck` message. -/
structure TxAckMsg where
  tx : TxAckTransactionType
  deriving DecidableEq, Repr

/-! ## `src/flows/sign_tx.rs`: the ack builders and the progress object -/

/-- Outcome of a client-level operation that may `assert!`-panic
(`assertPanic`), hit `unimplemented!` (`notImplemented`), fail, or succeed. -/
inductive CRes (α : Type) where
  | assertPanic
  | notImplemented
  | error (e : ClientError)
  | ok (a : α)
  deriving DecidableEq, Repr

/-- Wrap a `TxInputType` the way `ack_input_request` does: a fresh
`TransactionType` whose `inputs` list holds exactly this entry. -/
def mkInputAck (dataInput : TxInputType) : TxAckMsg :=
  ⟨{ TxAckTransactionType.empty with inputs := [dataInput] }⟩

/-- `sign_tx::ack_input_request`: fulfill a `TXINPUT` request from the PSBT. -/
def ack_input_request (req : TxRequestMsg) (psbt : Psbt) : Except ClientError TxAckMsg :=
  match req.details with
  | none => .error (.MalformedTxRequest req)
  | some details =>
    match details.request_index with
    | none => .error (.MalformedTxRequest req)
    | some input_index =>
      match details.tx_hash with
      | some txHashBytes =>
        -- Dependent transaction: find it among the PSBT inputs.
        match from_rev_bytes txHashBytes with
        | none => .error (.MalformedTxRequest req)
        | some req_hash =>
          match psbt_find_input psbt req_hash with
          | .error e => .error e
          | .ok inp =>
            match inp.non_witness_utxo with
            | none => .error (.PsbtMissingInputTx req_hash)
            | some tx =>
              match tx.input[input_index]? with
              | none => .error (.TxRequestInvalidIndex input_index)
              | some input =>
                .ok (mkInputAck
                  { prev_hash := to_rev_bytes input.previous_output.txid
                    prev_index := input.previous_output.vout
                    script_sig := input.script_sig.bytes
                    sequence := input.sequence
                    address_n := none
                    script_type := none
                    amount := none })
      | none =>
        -- Input of the transaction being signed: extra data is attached.
        match psbt.unsigned_tx.input[input_index]? with
        | none => .error (.TxRequestInvalidIndex input_index)
        | some input =>
          match psbt.inputs[input_index]? with
          | none => .error (.InvalidPsbt "not enough psbt inputs")
          | some psbt_input =>
            match (match psbt_input.witness_utxo with
              | some txout => .ok txout
              | none =>
                match psbt_input.non_witness_utxo with
                | some tx =>
                  match tx.output[input.previous_output.vout]? with
                  | none =>
                    .error (.InvalidPsbt
                      ("invalid utxo for PSBT input " ++ toString input_index))
                  | some txout => .ok txout
                | none =>
                  .error (.InvalidPsbt
                    ("no utxo for PSBT input " ++ toString input_index)) :
              Except ClientError TxOut) with
            | .error e => .error e
            | .ok txout =>
              .ok (mkInputAck
                { prev_hash := to_rev_bytes input.previous_output.txid
                  prev_index := input.previous_output.vout
                  script_sig := input.script_sig.bytes
                  sequence := input.sequence
                  address_n :=
                    if psbt_input.hd_keypaths.length = 1 then
                      some (psbt_input.hd_keypaths.headD [])
                    else none
                  script_type := some
                    (if txout.script_pubkey.is_p2pkh then .SPENDADDRESS
                     else if txout.script_pubkey.is_v0_p2wpkh ∨ txout.script_pubkey.is_v0_p2wsh
                       then .SPENDWITNESS
                     else if txout.script_pubkey.is_p2sh ∧ psbt_input.witness_script.isSome
                       then .SPENDP2SHWITNESS
                     else .EXTERNAL)
                  amount := some txout.value })

/-- `sign_tx::ack_output_request`: fulfill a `TXOUTPUT` request from the PSBT.
`addrOfScript` models `utils::address_from_script`, whose address rendering
rests on external base58/bech32 libraries. -/
def ack_output_request (addrOfScript : Script → Network → Option String)
    (req : TxRequestMsg) (psbt : Psbt) (network : Network) : Except ClientError TxAckMsg :=
  match req.details with
  | none => .error (.MalformedTxRequest req)
  | some details =>
    match details.request_index with
    | none => .error (.MalformedTxRequest req)
    | some output_index =>
      match details.tx_hash with
      | some txHashBytes =>
        -- Dependent transaction: only a bin_output is needed.
        match from_rev_bytes txHashBytes with
        | none => .error (.MalformedTxRequest req)
        | some req_hash =>
          match psbt_find_input psbt req_hash with
          | .error e => .error e
          | .ok inp =>
            match (match inp.non_witness_utxo with
              | some tx =>
                match tx.output[output_index]? with
                | none => .error (.TxRequestInvalidIndex output_index)
                | some o => .ok o
              | none =>
                match inp.witness_utxo with
                | some utxo => .ok utxo
                | none => .error (.InvalidPsbt "not all inputs have utxo data") :
              Except ClientError TxOut) with
            | .error e => .error e
            | .ok output =>
              .ok ⟨{ TxAckTransactionType.empty with
                bin_outputs := [⟨output.value, output.script_pubkey.bytes⟩] }⟩
      | none =>
        -- Output of the transaction being signed: full output meta object.
        match psbt.unsigned_tx.output[output_index]? with
        | none => .error (.TxRequestInvalidIndex output_index)
        | some output =>
          match psbt.outputs[output_index]? with
          | none => .error (.InvalidPsbt "output indices don't match")
          | some psbt_output =>
            let base : TxOutputType :=
              { amount := output.value
                script_type := .PAYTOADDRESS
                address := addrOfScript output.script_pubkey network
                address_n := none
                op_return_data := none }
            let data_output :=
              if psbt_output.hd_keypaths.length = 1 then
                let withPath := { base with
                  address_n := some (psbt_output.hd_keypaths.headD []) }
                let script_pubkey := output.script_pubkey
                if script_pubkey.is_op_return then
                  { withPath with
                    script_type := .PAYTOOPRETURN
                    op_return_data := some (script_pubkey.bytes.drop 1) }
                else if psbt_output.witness_script.isSome then
                  if psbt_output.redeem_script.isSome then
                    { withPath with script_type := .PAYTOP2SHWITNESS }
                  else
                    { withPath with script_type := .PAYTOWITNESS }
                else
                  { withPath with script_type := .PAYTOADDRESS }
              else base
            .ok ⟨{ TxAckTransactionType.empty with outputs := [data_output] }⟩

/-- `sign_tx::ack_meta_request`: fulfill a `TXMETA` request from the PSBT. -/
def ack_meta_request (req : TxRequestMsg) (psbt : Psbt) : Except ClientError TxAckMsg :=
  match req.details with
  | none => .error (.MalformedTxRequest req)
  | some details =>
    match (match details.tx_hash with
      | some txHashBytes =>
        match from_rev_bytes txHashBytes with
        | none => .error (.MalformedTxRequest req)
        | some req_hash =>
          match psbt_find_input psbt req_hash with
          | .error e => .error e
          | .ok inp =>
            match inp.non_witness_utxo with
            | none => .error (.PsbtMissingInputTx req_hash)
            | some tx => .ok tx
      | none => .ok psbt.unsigned_tx :
      Except ClientError Transaction) with
    | .error e => .error e
    | .ok tx =>
      .ok ⟨{ TxAckTransactionType.empty with
        version := some tx.version
        lock_time := some tx.lock_time
        inputs_cnt := some tx.input.length
        outputs_cnt := some tx.output.length }⟩

namespace SignTxProgress

/-- `SignTxProgress::finished`: the signing process is finished exactly when
the last request carries `TXFINISHED`. -/
def finished (req : TxRequestMsg) : Bool :=
  req.request_type = TxRequestType.TXFINISHED

/-- `SignTxProgress::ack_msg`: `assert!(!self.finished())`, then send the ack
through `Trezor::call` (expecting a `TxRequest` back) — the successful result
carries the ack that was sent and the dispatched response. -/
def ack_msg (req : TxRequestMsg) (ack : TxAckMsg) (respType : MessageType) :
    CRes (TxAckMsg × DispatchResult) :=
  if finished req then .assertPanic
  else
    match Client.dispatch .TxRequest respType with
    | .ok d => .ok (ack, d)
    | .error e => .error e

/-- `SignTxProgress::ack_psbt`: `assert!` the request type is not
`TXFINISHED`, build the ack matching the request type (`unimplemented!` for
`TXEXTRADATA`), then `ack_msg` it. -/
def ack_psbt (addrOfScript : Script → Network → Option String) (req : TxRequestMsg)
    (psbt : Psbt) (network : Network) (respType : MessageType) :
    CRes (TxAckMsg × DispatchResult) :=
  if req.request_type = TxRequestType.TXFINISHED then .assertPanic
  else
    match (match req.request_type with
      | .TXINPUT => some (ack_input_request req psbt)
      | .TXOUTPUT => some (ack_output_request addrOfScript req psbt network)
      | .TXMETA => some (ack_meta_request req psbt)
      | .TXEXTRADATA => none
      | .TXFINISHED => none) with
    | none => .notImplemented
    | some (.error e) => .error e
    | some (.ok ack) => ack_msg req ack respType

end SignTxProgress

/-! ## `src/utils.rs`: recoverable-signature parsing (used by
`Trezor::sign_message`) -/

/-- The secp256k1 error kinds the parse can produce. -/
inductive SecpError where
  | InvalidSignature
  | InvalidRecoveryId
  deriving DecidableEq, Repr

/-- A recoverable signature: recovery id plus the 64 compact bytes. -/
structure RecoverableSignature where
  rec_id : Nat
  compact : List Nat
  deriving DecidableEq, Repr

/-- Modelled from the spec: `secp256k1::RecoveryId::from_i32` of the external
secp256k1 crate accepts exactly the ids 0, 1, 2, 3. -/
def RecoveryId.from_i32 (n : Nat) : Except SecpError Nat :=
  if n ≤ 3 then .ok n else .error .InvalidRecoveryId

/-- Modelled from the spec: `RecoverableSignature::from_compact` of the
external secp256k1 crate parses a 64-byte compact representation (the r/s
range checks of the external library are abstracted away). -/
def RecoverableSignature.from_compact (data : List Nat) (id : Nat) :
    Except SecpError RecoverableSignature :=
  if data.length = 64 then .ok ⟨id, data⟩ else .error .InvalidSignature

/-- `utils::parse_recoverable_signature`: a Bitcoin Core-style 65-byte
recoverable signature; the first byte encodes the recovery id
(`27 + rec + (fCompressed ? 4 : 0)`), the remaining 64 bytes are the compact
signature.  The `sig[0] - 27` branch is u8 arithmetic, modelled with
wrap-around. -/
def parse_recoverable_signature (sig : List Nat) : Except SecpError RecoverableSignature :=
  if sig.length ≠ 65 then .error .InvalidSignature
  else
    let b0 := sig.headD 0
    let recRaw := if 31 ≤ b0 then b0 - 31 else (b0 + 256 - 27) % 256
    match RecoveryId.from_i32 recRaw with
    | .error e => .error e
    | .ok rec_id => RecoverableSignature.from_compact (sig.drop 1) rec_id

/-! ## Well-formed V2 device streams

Chunk sequences shaped exactly as `ProtocolV2::read` demands (magic `0x01`
first chunk, then `0x02 ∥ SID[4] ∥ SEQ[4]` continuations with consecutive
sequence numbers).  They serve as inputs when exercising the read path. -/

namespace ProtocolV2

/-- Continuation chunks as `ProtocolV2::read` expects them: magic `0x02`,
session id, consecutive sequence numbers from `seq`, 55 payload bytes each,
zero-padded to 64. -/
def mkContChunks (sid : Nat) (seq : Nat) (data : List Nat) : List (List Nat) :=
  if h : data = [] then []
  else
    padTo 64 (2 :: (writeU32BE sid ++ (writeU32BE seq ++ data.take 55))) ::
      mkContChunks sid (seq + 1) (data.drop 55)
termination_by data.length
decreasing_by
  simp only [List.length_drop]
  have : 0 < data.length := List.length_pos.mpr h
  omega

/-- A complete well-formed V2 stream carrying one message. -/
def mkStream (sid : Nat) (m : ProtoMessage) : List (List Nat) :=
  let data := writeU32BE m.messageType ++ (writeU32BE m.payload.length ++ m.payload)
  padTo 64 (1 :: (writeU32BE sid ++ data.take 59)) :: mkContChunks sid 0 (data.drop 59)

end ProtocolV2

/-! ## Basic lemmas about the byte helpers -/

theorem readU32BE_writeU32BE (n : Nat) (t : List Nat) :
    readU32BE (writeU32BE n ++ t) = n % 4294967296 := by
  simp only [writeU32BE, readU32BE, List.cons_append, List.nil_append]
  omega

theorem readU16BE_writeU16BE (n : Nat) (t : List Nat) :
    readU16BE (writeU16BE n ++ t) = n % 65536 := by
  simp only [writeU16BE, List.cons_append, List.nil_append, readU16BE]
  omega

theorem length_writeU32BE (n : Nat) : (writeU32BE n).length = 4 := rfl

theorem length_writeU16BE (n : Nat) : (writeU16BE n).length = 2 := rfl

theorem padTo_eq (n : Nat) (l : List Nat) :
    padTo n l = l ++ List.replicate (n - l.length) 0 := rfl

theorem length_padTo (n : Nat) (l : List Nat) (h : l.length ≤ n) :
    (padTo n l).length = n := by
  simp only [padTo, List.length_append, List.length_replicate]
  omega

/-! ## Reassembly lemmas for the V1 framer -/

theorem ProtocolV1.readLoop_chunks (n : Nat) :
    ∀ (tail acc : List Nat) (L : Nat), tail.length ≤ n → L ≤ acc.length + tail.length →
      ProtocolV1.readLoop L acc (ProtocolV1.chunks tail) = .ok ((acc ++ tail).take L) := by
  induction n with
  | zero =>
    intro tail acc L hn hL
    have htail : tail = [] := List.length_eq_zero.mp (Nat.le_zero.mp hn)
    subst htail
    rw [ProtocolV1.chunks]
    simp only [List.append_nil] at hL ⊢
    rw [ProtocolV1.readLoop.eq_def]
    rw [if_pos (by omega : L ≤ acc.length)]
  | succ n ih =>
    intro tail acc L hn hL
    by_cases hLa : L ≤ acc.length
    · rw [ProtocolV1.readLoop.eq_def]
      rw [if_pos hLa, List.take_append_of_le_length hLa]
    · have htail : tail ≠ [] := by
        intro h
        subst h
        simp only [List.length_nil, Nat.add_zero] at hL
        omega
      rw [ProtocolV1.chunks, dif_neg htail]
      rw [ProtocolV1.readLoop.eq_def, if_neg hLa]
      simp only [padTo_eq, List.cons_append, List.getD_cons_zero, List.drop_succ_cons,
        List.drop_zero, ne_eq, not_true_eq_false, if_false]
      rw [ih (tail.drop 63) (acc ++ (tail.take 63 ++ List.replicate (64 - (63 :: tail.take 63).length) 0)) L
        (by
          simp only [List.length_drop]
          have : 0 < tail.length := List.length_pos.mpr htail
          omega)
        (by
          simp only [List.length_append, List.length_take, List.length_drop,
            List.length_replicate, List.length_cons]
          omega)]
      congr 1
      by_cases h63 : 63 ≤ tail.length
      · have hpad : 64 - (63 :: tail.take 63).length = 0 := by
          simp only [List.length_cons, List.length_take]
          omega
        rw [hpad]
        simp only [List.replicate_zero, List.append_nil, List.append_assoc,
          List.take_append_drop]
      · have hdrop : tail.drop 63 = [] := by
          rw [List.drop_eq_nil_iff_le]
          omega
        have htake : tail.take 63 = tail := List.take_of_length_le (by omega)
        rw [hdrop, htake, List.append_nil, ← List.append_assoc]
        rw [List.take_append_of_le_length]
        simp only [List.length_append]
        omega

/-! ## Small reduction helpers for fixed chunk offsets -/

theorem getD0_cons (x : Nat) (r : List Nat) : (x :: r).getD 0 0 = x := rfl

theorem getD1_cons (x y : Nat) (r : List Nat) : (x :: y :: r).getD 1 0 = y := rfl

theorem getD2_cons (x y z : Nat) (r : List Nat) : (x :: y :: z :: r).getD 2 0 = z := rfl

theorem drop1_cons (x : Nat) (r : List Nat) : List.drop 1 (x :: r) = r := rfl

theorem drop3_cons (x y z : Nat) (r : List Nat) : List.drop 3 (x :: y :: z :: r) = r := rfl

theorem drop5_cons (x1 x2 x3 x4 x5 : Nat) (r : List Nat) :
    List.drop 5 (x1 :: x2 :: x3 :: x4 :: x5 :: r) = r := rfl

theorem drop9_cons (x1 x2 x3 x4 x5 x6 x7 x8 x9 : Nat) (r : List Nat) :
    List.drop 9 (x1 :: x2 :: x3 :: x4 :: x5 :: x6 :: x7 :: x8 :: x9 :: r) = r := rfl

theorem drop13_cons (x1 x2 x3 x4 x5 x6 x7 x8 x9 x10 x11 x12 x13 : Nat) (r : List Nat) :
    List.drop 13 (x1 :: x2 :: x3 :: x4 :: x5 :: x6 :: x7 :: x8 :: x9 :: x10 :: x11 :: x12 ::
      x13 :: r) = r := rfl

theorem take63_cons8 (x1 x2 x3 x4 x5 x6 x7 x8 : Nat) (r : List Nat) :
    List.take 63 (x1 :: x2 :: x3 :: x4 :: x5 :: x6 :: x7 :: x8 :: r) =
      x1 :: x2 :: x3 :: x4 :: x5 :: x6 :: x7 :: x8 :: List.take 55 r := rfl

theorem drop63_cons8 (x1 x2 x3 x4 x5 x6 x7 x8 : Nat) (r : List Nat) :
    List.drop 63 (x1 :: x2 :: x3 :: x4 :: x5 :: x6 :: x7 :: x8 :: r) = List.drop 55 r := rfl

theorem take59_cons8 (x1 x2 x3 x4 x5 x6 x7 x8 : Nat) (r : List Nat) :
    List.take 59 (x1 :: x2 :: x3 :: x4 :: x5 :: x6 :: x7 :: x8 :: r) =
      x1 :: x2 :: x3 :: x4 :: x5 :: x6 :: x7 :: x8 :: List.take 51 r := rfl

theorem drop59_cons8 (x1 x2 x3 x4 x5 x6 x7 x8 : Nat) (r : List Nat) :
    List.drop 59 (x1 :: x2 :: x3 :: x4 :: x5 :: x6 :: x7 :: x8 :: r) = List.drop 51 r := rfl

/-- Concatenating the accumulated prefix (with its final-chunk padding) and the
unsent remainder and truncating to the payload length recovers the payload. -/
theorem take_padded_split (payload : List Nat) (k : Nat) :
    ((payload.take k ++ List.replicate (k - (payload.take k).length) 0) ++
      payload.drop k).take payload.length = payload := by
  by_cases hk : payload.length ≤ k
  · rw [List.take_of_length_le hk, List.drop_eq_nil_iff_le.mpr hk, List.append_nil,
      List.take_append_of_le_length (le_refl _), List.take_length]
  · have : k - (payload.take k).length = 0 := by
      simp only [List.length_take]
      omega
    rw [this, List.replicate_zero, List.append_nil, List.take_append_drop,
      List.take_length]

/-- V1 round-trip: reading back exactly the chunks `ProtocolV1::write` emitted
recovers the message, for any message type below `2^16` known to the schema
and any payload shorter than `2^32`. -/
theorem v1_write_read (kt : Nat → Bool) (mt : Nat) (payload : List Nat)
    (hmt : mt < 65536) (hkt : kt mt = true) (hL : payload.length < 4294967296) :
    ProtocolV1.read kt (ProtocolV1.write ⟨mt, payload⟩) = .ok ⟨mt, payload⟩ := by
  have hdata : (35 : Nat) :: 35 :: (writeU16BE mt ++ (writeU32BE payload.length ++ payload)) =
      35 :: 35 :: mt / 256 % 256 :: mt % 256 :: payload.length / 16777216 % 256 ::
      payload.length / 65536 % 256 :: payload.length / 256 % 256 :: payload.length % 256 ::
      payload := rfl
  rw [ProtocolV1.write]
  simp only at hdata ⊢
  rw [hdata, ProtocolV1.chunks, dif_neg (by simp), take63_cons8, drop63_cons8]
  rw [padTo_eq]
  simp only [List.cons_append, ProtocolV1.read]
  rw [getD0_cons, getD1_cons, getD2_cons]
  rw [if_neg (by norm_num)]
  rw [drop3_cons]
  simp only [readU16BE]
  have hmtid : mt / 256 % 256 * 256 + mt % 256 = mt := by omega
  rw [hmtid, hkt]
  simp only [if_true]
  rw [drop5_cons]
  simp only [readU32BE]
  have hlen : ((payload.length / 16777216 % 256 * 256 + payload.length / 65536 % 256) * 256 +
      payload.length / 256 % 256) * 256 + payload.length % 256 = payload.length := by omega
  rw [hlen, drop9_cons]
  rw [ProtocolV1.readLoop_chunks (payload.drop 55).length (payload.drop 55) _ _ (le_refl _)
    (by
      simp only [List.length_append, List.length_take, List.length_replicate,
        List.length_drop, List.length_cons]
      omega)]
  have hsplit := take_padded_split payload 55
  have harg : List.replicate (64 - (63 :: 35 :: 35 :: mt / 256 % 256 :: mt % 256 ::
      payload.length / 16777216 % 256 :: payload.length / 65536 % 256 ::
      payload.length / 256 % 256 :: payload.length % 256 :: payload.take 55).length) 0 =
      List.replicate (55 - (payload.take 55).length) 0 := by
    simp only [List.length_cons, List.length_take]
    congr 1
    omega
  rw [harg, hsplit]
  rfl

/-! ## Reassembly lemmas for the V2 framer -/

/-- Concatenating an accumulated prefix, the padded `take k` slice, and the
`drop k` remainder, then truncating, is the same as truncating the plain
concatenation. -/
theorem take_acc_padded_split (acc payload : List Nat) (k P L : Nat)
    (hP : P = k - (payload.take k).length) (hL : L ≤ acc.length + payload.length) :
    ((acc ++ (payload.take k ++ List.replicate P 0)) ++ payload.drop k).take L =
      (acc ++ payload).take L := by
  by_cases hk : k ≤ payload.length
  · have hP0 : P = 0 := by
      simp only [List.length_take] at hP
      omega
    subst hP0
    simp only [List.replicate_zero, List.append_nil, List.append_assoc,
      List.take_append_drop]
  · have htake : payload.take k = payload := List.take_of_length_le (by omega)
    have hdrop : payload.drop k = [] := List.drop_eq_nil_iff_le.mpr (by omega)
    rw [htake, hdrop, List.append_nil, ← List.append_assoc]
    rw [List.take_append_of_le_length (by simp only [List.length_append]; omega)]

theorem ProtocolV2.readLoop_mkContChunks (sid : Nat) (hsid : sid < 4294967296) (n : Nat) :
    ∀ (tail acc : List Nat) (L seq : Nat), tail.length ≤ n → L ≤ acc.length + tail.length →
      ProtocolV2.readLoop sid L seq acc (ProtocolV2.mkContChunks sid seq tail) =
        .ok ((acc ++ tail).take L) := by
  induction n with
  | zero =>
    intro tail acc L seq hn hL
    have htail : tail = [] := List.length_eq_zero.mp (Nat.le_zero.mp hn)
    subst htail
    rw [ProtocolV2.mkContChunks]
    simp only [List.append_nil] at hL ⊢
    rw [ProtocolV2.readLoop.eq_def]
    rw [if_pos (by omega : L ≤ acc.length)]
  | succ n ih =>
    intro tail acc L seq hn hL
    by_cases hLa : L ≤ acc.length
    · rw [ProtocolV2.readLoop.eq_def]
      rw [if_pos hLa, List.take_append_of_le_length hLa]
    · have htail : tail ≠ [] := by
        intro h
        subst h
        simp only [List.length_nil, Nat.add_zero] at hL
        omega
      rw [ProtocolV2.mkContChunks, dif_neg htail]
      have hchunk : (2 : Nat) :: (writeU32BE sid ++ (writeU32BE seq ++ tail.take 55)) =
          2 :: sid / 16777216 % 256 :: sid / 65536 % 256 :: sid / 256 % 256 :: sid % 256 ::
          seq / 16777216 % 256 :: seq / 65536 % 256 :: seq / 256 % 256 :: seq % 256 ::
          tail.take 55 := rfl
      rw [ProtocolV2.readLoop.eq_def, if_neg hLa]
      rw [padTo_eq, hchunk]
      simp only [List.cons_append, List.length_cons, List.length_append, List.length_take,
        getD0_cons, drop1_cons, drop5_cons, drop9_cons]
      rw [if_neg (by omega)]
      simp only [readU32BE]
      rw [if_neg (by omega), if_neg (by omega)]
      refine (ih (tail.drop 55) _ L (seq + 1) ?_ ?_).trans ?_
      · simp only [List.length_drop]
        have : 0 < tail.length := List.length_pos.mpr htail
        omega
      · simp only [List.length_append, List.length_take, List.length_drop,
          List.length_replicate]
        omega
      · refine congrArg Except.ok (take_acc_padded_split acc tail 55 _ L ?_ hL)
        simp only [List.length_take]
        omega

/-- Reading a well-formed V2 stream (magic `0x02` continuations, consecutive
sequence numbers) succeeds and yields the carried message. -/
theorem v2_read_mkStream (kt : Nat → Bool) (sid mt : Nat) (payload : List Nat)
    (hsid0 : sid ≠ 0) (hsid : sid < 4294967296) (hmt : mt < 4294967296)
    (hkt : kt mt = true) (hL : payload.length < 4294967296) :
    ProtocolV2.read kt sid (ProtocolV2.mkStream sid ⟨mt, payload⟩) = .ok ⟨mt, payload⟩ := by
  have hdata : writeU32BE mt ++ (writeU32BE payload.length ++ payload) =
      mt / 16777216 % 256 :: mt / 65536 % 256 :: mt / 256 % 256 :: mt % 256 ::
      payload.length / 16777216 % 256 :: payload.length / 65536 % 256 ::
      payload.length / 256 % 256 :: payload.length % 256 :: payload := rfl
  have hsidb : writeU32BE sid =
      [sid / 16777216 % 256, sid / 65536 % 256, sid / 256 % 256, sid % 256] := rfl
  simp only [ProtocolV2.mkStream]
  rw [hdata, take59_cons8, drop59_cons8, hsidb]
  rw [ProtocolV2.read.eq_def, if_neg hsid0]
  rw [padTo_eq]
  simp only [List.cons_append, List.nil_append, List.length_cons, List.length_append,
    List.length_take, getD0_cons, drop1_cons, drop5_cons, drop9_cons, drop13_cons]
  rw [if_neg (by omega)]
  rw [if_neg (by simp only [readU32BE]; omega)]
  have hmtid : readU32BE (mt / 16777216 % 256 :: mt / 65536 % 256 :: mt / 256 % 256 ::
      mt % 256 :: payload.length / 16777216 % 256 :: payload.length / 65536 % 256 ::
      payload.length / 256 % 256 :: payload.length % 256 ::
      (payload.take 51 ++ List.replicate (64 - (51 ⊓ payload.length + 1 + 1 + 1 + 1 + 1 + 1 +
        1 + 1 + 1 + 1 + 1 + 1 + 1)) 0)) = mt := by
    simp only [readU32BE]
    omega
  have hlen : readU32BE (payload.length / 16777216 % 256 :: payload.length / 65536 % 256 ::
      payload.length / 256 % 256 :: payload.length % 256 ::
      (payload.take 51 ++ List.replicate (64 - (51 ⊓ payload.length + 1 + 1 + 1 + 1 + 1 + 1 +
        1 + 1 + 1 + 1 + 1 + 1 + 1)) 0)) = payload.length := by
    simp only [readU32BE]
    omega
  rw [hmtid, hlen, hkt]
  simp only [if_true]
  rw [ProtocolV2.readLoop_mkContChunks sid hsid (payload.drop 51).length (payload.drop 51) _ _ _
    (le_refl _)
    (by
      simp only [List.length_append, List.length_take, List.length_replicate, List.length_drop]
      omega)]
  have harg : List.replicate (64 - (51 ⊓ payload.length + 1 + 1 + 1 + 1 + 1 + 1 +
      1 + 1 + 1 + 1 + 1 + 1 + 1)) 0 = List.replicate (51 - (payload.take 51).length) 0 := by
    simp only [List.length_take]
    congr 1
    omega
  rw [harg, take_padded_split payload 51]

/-- For payloads that fit one chunk (at most 51 bytes) the stream that
`ProtocolV2::write` emits is exactly the well-formed stream: no continuation
chunk is produced. -/
theorem v2_writeChunks_single (sid mt : Nat) (payload : List Nat)
    (hL : payload.length ≤ 51) :
    ProtocolV2.writeChunks sid ⟨mt, payload⟩ = ProtocolV2.mkStream sid ⟨mt, payload⟩ := by
  have hdata : writeU32BE mt ++ (writeU32BE payload.length ++ payload) =
      mt / 16777216 % 256 :: mt / 65536 % 256 :: mt / 256 % 256 :: mt % 256 ::
      payload.length / 16777216 % 256 :: payload.length / 65536 % 256 ::
      payload.length / 256 % 256 :: payload.length % 256 :: payload := rfl
  have hdrop : payload.drop 51 = [] := List.drop_eq_nil_iff_le.mpr hL
  simp only [ProtocolV2.writeChunks, ProtocolV2.mkStream]
  rw [hdata, drop59_cons8, hdrop, ProtocolV2.writeCont, ProtocolV2.mkContChunks]
  simp

/-- V2 round-trip for single-chunk payloads: reading back the chunks
`ProtocolV2::write` emitted recovers the message when the payload is at most
51 bytes. -/
theorem v2_write_read_single (kt : Nat → Bool) (sid mt : Nat) (payload : List Nat)
    (hsid0 : sid ≠ 0) (hsid : sid < 4294967296) (hmt : mt < 4294967296)
    (hkt : kt mt = true) (hL : payload.length ≤ 51) :
    ProtocolV2.read kt sid (ProtocolV2.writeChunks sid ⟨mt, payload⟩) = .ok ⟨mt, payload⟩ := by
  rw [v2_writeChunks_single sid mt payload hL]
  exact v2_read_mkStream kt sid mt payload hsid0 hsid hmt hkt (by omega)

/-- V2 write/read mismatch: for payloads spanning more than one chunk the
stream `ProtocolV2::write` emits is rejected by `ProtocolV2::read` with
`DeviceBadMagic`, because the writer marks continuation chunks `0x01` while
the reader demands `0x02`. -/
theorem v2_write_read_multichunk (kt : Nat → Bool) (sid mt : Nat) (payload : List Nat)
    (hsid0 : sid ≠ 0) (hsid : sid < 4294967296) (hmt : mt < 4294967296)
    (hkt : kt mt = true) (hL : 52 ≤ payload.length) (hL2 : payload.length < 4294967296) :
    ProtocolV2.read kt sid (ProtocolV2.writeChunks sid ⟨mt, payload⟩) =
      .error .DeviceBadMagic := by
  have hdata : writeU32BE mt ++ (writeU32BE payload.length ++ payload) =
      mt / 16777216 % 256 :: mt / 65536 % 256 :: mt / 256 % 256 :: mt % 256 ::
      payload.length / 16777216 % 256 :: payload.length / 65536 % 256 ::
      payload.length / 256 % 256 :: payload.length % 256 :: payload := rfl
  have hsidb : writeU32BE sid =
      [sid / 16777216 % 256, sid / 65536 % 256, sid / 256 % 256, sid % 256] := rfl
  simp only [ProtocolV2.writeChunks]
  rw [hdata, take59_cons8, drop59_cons8, hsidb]
  rw [ProtocolV2.read.eq_def, if_neg hsid0]
  rw [padTo_eq]
  simp only [List.cons_append, List.nil_append, List.length_cons, List.length_append,
    List.length_take, getD0_cons, drop1_cons, drop5_cons, drop9_cons, drop13_cons]
  rw [if_neg (by omega)]
  rw [if_neg (by simp only [readU32BE]; omega)]
  have hmtid : readU32BE (mt / 16777216 % 256 :: mt / 65536 % 256 :: mt / 256 % 256 ::
      mt % 256 :: payload.length / 16777216 % 256 :: payload.length / 65536 % 256 ::
      payload.length / 256 % 256 :: payload.length % 256 ::
      (payload.take 51 ++ List.replicate (64 - (51 ⊓ payload.length + 1 + 1 + 1 + 1 + 1 + 1 +
        1 + 1 + 1 + 1 + 1 + 1 + 1)) 0)) = mt := by
    simp only [readU32BE]
    omega
  have hlen : readU32BE (payload.length / 16777216 % 256 :: payload.length / 65536 % 256 ::
      payload.length / 256 % 256 :: payload.length % 256 ::
      (payload.take 51 ++ List.replicate (64 - (51 ⊓ payload.length + 1 + 1 + 1 + 1 + 1 + 1 +
        1 + 1 + 1 + 1 + 1 + 1 + 1)) 0)) = payload.length := by
    simp only [readU32BE]
    omega
  rw [hmtid, hlen, hkt]
  simp only [if_true]
  have hdrop : payload.drop 51 ≠ [] := by
    intro h
    rw [List.drop_eq_nil_iff_le] at h
    omega
  rw [ProtocolV2.writeCont, dif_neg hdrop]
  rw [ProtocolV2.readLoop.eq_def]
  rw [if_neg (by
    simp only [List.length_append, List.length_take, List.length_replicate]
    omega)]
  rw [padTo_eq]
  simp only [List.cons_append, getD0_cons]
  rw [if_pos (by omega)]

/-! ## Chunk-length lemmas -/

theorem chunksV1_length_mem (n : Nat) :
    ∀ (data : List Nat) (c : List Nat), data.length ≤ n → c ∈ ProtocolV1.chunks data →
      c.length = 64 := by
  induction n with
  | zero =>
    intro data c hn hc
    have : data = [] := List.length_eq_zero.mp (Nat.le_zero.mp hn)
    subst this
    rw [ProtocolV1.chunks] at hc
    simp at hc
  | succ n ih =>
    intro data c hn hc
    by_cases hdata : data = []
    · subst hdata
      rw [ProtocolV1.chunks] at hc
      simp at hc
    · rw [ProtocolV1.chunks, dif_neg hdata] at hc
      rcases List.mem_cons.mp hc with h | h
      · subst h
        rw [length_padTo]
        simp only [List.length_cons, List.length_take]
        omega
      · refine ih (data.drop 63) c ?_ h
        simp only [List.length_drop]
        have : 0 < data.length := List.length_pos.mpr hdata
        omega

theorem writeContV2_length_mem (n : Nat) :
    ∀ (sid seq : Nat) (data : List Nat) (c : List Nat), data.length ≤ n →
      c ∈ ProtocolV2.writeCont sid seq data → c.length = 64 := by
  induction n with
  | zero =>
    intro sid seq data c hn hc
    have : data = [] := List.length_eq_zero.mp (Nat.le_zero.mp hn)
    subst this
    rw [ProtocolV2.writeCont] at hc
    simp at hc
  | succ n ih =>
    intro sid seq data c hn hc
    by_cases hdata : data = []
    · subst hdata
      rw [ProtocolV2.writeCont] at hc
      simp at hc
    · rw [ProtocolV2.writeCont, dif_neg hdata] at hc
      rcases List.mem_cons.mp hc with h | h
      · subst h
        rw [length_padTo]
        simp only [List.length_cons, List.length_append, List.length_take, length_writeU32BE]
        omega
      · refine ih sid (seq + 1) (data.drop 55) c ?_ h
        simp only [List.length_drop]
        have : 0 < data.length := List.length_pos.mpr hdata
        omega

theorem writeChunksV2_length_mem (sid : Nat) (m : ProtoMessage) (c : List Nat)
    (hc : c ∈ ProtocolV2.writeChunks sid m) : c.length = 64 := by
  simp only [ProtocolV2.writeChunks] at hc
  rcases List.mem_cons.mp hc with h | h
  · subst h
    rw [length_padTo]
    simp only [List.length_cons, List.length_append, List.length_take, length_writeU32BE]
    omega
  · exact writeContV2_length_mem _ sid 0 _ c (le_refl _) h

/-! ## Claim theorems -/

/-- C1: Framing round-trip.  The V1 framer reads back exactly what it wrote
for every known message type below `2^16` and every payload shorter than
`2^32` (covering lengths 0, 1, 62, 63, 64, 1024 and 1 MiB).  The V2 framer
(under a shared non-zero session id) reads back its own output only for
payloads of at most 51 bytes (one chunk); for any longer payload — including
lengths 62, 63, 64, 1024 and 1 MiB — its read path rejects the continuation
chunks its own write path produced with `DeviceBadMagic`, because the writer
marks them `0x01` while the reader demands `0x02`. -/
theorem C1_framing_roundtrip :
    (∀ (kt : Nat → Bool) (mt : Nat) (payload : List Nat),
      mt < 65536 → kt mt = true → payload.length < 4294967296 →
        ProtocolV1.read kt (ProtocolV1.write ⟨mt, payload⟩) = .ok ⟨mt, payload⟩) ∧
    (∀ (kt : Nat → Bool) (sid mt : Nat) (payload : List Nat),
      sid ≠ 0 → sid < 4294967296 → mt < 4294967296 → kt mt = true → payload.length ≤ 51 →
        ProtocolV2.read kt sid (ProtocolV2.writeChunks sid ⟨mt, payload⟩) = .ok ⟨mt, payload⟩) ∧
    (∀ (kt : Nat → Bool) (sid mt : Nat) (payload : List Nat),
      sid ≠ 0 → sid < 4294967296 → mt < 4294967296 → kt mt = true →
      52 ≤ payload.length → payload.length < 4294967296 →
        ProtocolV2.read kt sid (ProtocolV2.writeChunks sid ⟨mt, payload⟩) =
          .error .DeviceBadMagic) :=
  ⟨v1_write_read, v2_write_read_single, v2_write_read_multichunk⟩

/-- Witness for C1 at concrete inputs: a 65-byte payload round-trips on V1, a
1-byte payload round-trips on V2, and a 62-byte payload breaks the V2
round-trip with `DeviceBadMagic`. -/
theorem C1_framing_roundtrip_witness :
    ProtocolV1.read (fun _ => true) (ProtocolV1.write ⟨17, List.replicate 65 7⟩) =
      .ok ⟨17, List.replicate 65 7⟩ ∧
    ProtocolV2.read (fun _ => true) 42 (ProtocolV2.writeChunks 42 ⟨17, [5]⟩) =
      .ok ⟨17, [5]⟩ ∧
    ProtocolV2.read (fun _ => true) 42 (ProtocolV2.writeChunks 42 ⟨17, List.replicate 62 0⟩) =
      .error .DeviceBadMagic :=
  ⟨C1_framing_roundtrip.1 (fun _ => true) 17 (List.replicate 65 7) (by decide) rfl (by decide),
   C1_framing_roundtrip.2.1 (fun _ => true) 42 17 [5] (by decide) (by decide) (by decide) rfl
     (by decide),
   C1_framing_roundtrip.2.2 (fun _ => true) 42 17 (List.replicate 62 0) (by decide) (by decide)
     (by decide) rfl (by decide) (by decide)⟩

/-- C3: V2 read-path error handling.  On the first chunk: a leading byte other
than `0x01` yields `DeviceBadMagic`, a session-id field different from the
stored session id yields `DeviceBadSessionId`, an unknown message-type tag
yields `InvalidMessageType(id)`.  In the reassembly loop: a continuation
chunk whose leading byte is not `0x02` yields `DeviceBadMagic`, a wrong
session id `DeviceBadSessionId`, and a sequence-number field different from
the expected next value yields `DeviceUnexpectedSequenceNumber`.  A
well-formed stream — continuation sequence numbers exactly `0, 1, …, k-2` —
is accepted and yields the message with the declared payload length. -/
theorem C3_v2_read_errors :
    (∀ (kt : Nat → Bool) (sid : Nat) (c : List Nat) (rest : List (List Nat)),
      sid ≠ 0 → c.getD 0 0 ≠ 1 →
        ProtocolV2.read kt sid (c :: rest) = .error .DeviceBadMagic) ∧
    (∀ (kt : Nat → Bool) (sid : Nat) (c : List Nat) (rest : List (List Nat)),
      sid ≠ 0 → c.getD 0 0 = 1 → readU32BE (c.drop 1) ≠ sid →
        ProtocolV2.read kt sid (c :: rest) = .error .DeviceBadSessionId) ∧
    (∀ (kt : Nat → Bool) (sid : Nat) (c : List Nat) (rest : List (List Nat)),
      sid ≠ 0 → c.getD 0 0 = 1 → readU32BE (c.drop 1) = sid →
      kt (readU32BE (c.drop 5)) = false →
        ProtocolV2.read kt sid (c :: rest) =
          .error (.InvalidMessageType (readU32BE (c.drop 5)))) ∧
    (∀ (sid L seq : Nat) (data c : List Nat) (rest : List (List Nat)),
      data.length < L → c.getD 0 0 ≠ 2 →
        ProtocolV2.readLoop sid L seq data (c :: rest) = .error .DeviceBadMagic) ∧
    (∀ (sid L seq : Nat) (data c : List Nat) (rest : List (List Nat)),
      data.length < L → c.getD 0 0 = 2 → readU32BE (c.drop 1) ≠ sid →
        ProtocolV2.readLoop sid L seq data (c :: rest) = .error .DeviceBadSessionId) ∧
    (∀ (sid L seq : Nat) (data c : List Nat) (rest : List (List Nat)),
      data.length < L → c.getD 0 0 = 2 → readU32BE (c.drop 1) = sid →
      readU32BE (c.drop 5) ≠ seq % 4294967296 →
        ProtocolV2.readLoop sid L seq data (c :: rest) =
          .error .DeviceUnexpectedSequenceNumber) ∧
    (∀ (kt : Nat → Bool) (sid mt : Nat) (payload : List Nat),
      sid ≠ 0 → sid < 4294967296 → mt < 4294967296 → kt mt = true →
      payload.length < 4294967296 →
        ProtocolV2.read kt sid (ProtocolV2.mkStream sid ⟨mt, payload⟩) =
          .ok ⟨mt, payload⟩) := by
  refine ⟨?_, ?_, ?_, ?_, ?_, ?_, v2_read_mkStream⟩
  · intro kt sid c rest hsid0 hmagic
    rw [ProtocolV2.read.eq_def, if_neg hsid0]
    simp only [if_pos hmagic]
  · intro kt sid c rest hsid0 hmagic hsidne
    rw [ProtocolV2.read.eq_def, if_neg hsid0]
    simp only [hmagic, ne_eq, not_true_eq_false, if_false, if_pos hsidne]
  · intro kt sid c rest hsid0 hmagic hsideq hkt
    rw [ProtocolV2.read.eq_def, if_neg hsid0]
    simp only [hmagic, hsideq, ne_eq, not_true_eq_false, if_false, hkt, Bool.false_eq_true]
  · intro sid L seq data c rest hlen hmagic
    rw [ProtocolV2.readLoop.eq_def, if_neg (by omega)]
    simp only [if_pos hmagic]
  · intro sid L seq data c rest hlen hmagic hsidne
    rw [ProtocolV2.readLoop.eq_def, if_neg (by omega)]
    simp only [hmagic, ne_eq, not_true_eq_false, if_false, if_pos hsidne]
  · intro sid L seq data c rest hlen hmagic hsideq hseq
    rw [ProtocolV2.readLoop.eq_def, if_neg (by omega)]
    simp only [hmagic, hsideq, ne_eq, not_true_eq_false, if_false, if_pos hseq]

/-- Witness for C3 at concrete inputs: each error case and the success case
exercised on explicit chunks (the success case spans two chunks, with
continuation sequence number 0). -/
theorem C3_v2_read_errors_witness :
    ProtocolV2.read (fun _ => true) 1 (List.replicate 64 9 :: []) =
      .error .DeviceBadMagic ∧
    ProtocolV2.read (fun _ => true) 1 (padTo 64 [1, 0, 0, 0, 2] :: []) =
      .error .DeviceBadSessionId ∧
    ProtocolV2.read (fun _ => false) 1 (padTo 64 [1, 0, 0, 0, 1, 0, 0, 0, 17] :: []) =
      .error (.InvalidMessageType 17) ∧
    ProtocolV2.readLoop 1 10 0 [] (List.replicate 64 9 :: []) = .error .DeviceBadMagic ∧
    ProtocolV2.readLoop 1 10 0 [] (padTo 64 [2, 0, 0, 0, 7] :: []) =
      .error .DeviceBadSessionId ∧
    ProtocolV2.readLoop 1 10 0 [] (padTo 64 [2, 0, 0, 0, 1, 0, 0, 0, 5] :: []) =
      .error .DeviceUnexpectedSequenceNumber ∧
    ProtocolV2.read (fun _ => true) 1 (ProtocolV2.mkStream 1 ⟨17, List.replicate 62 3⟩) =
      .ok ⟨17, List.replicate 62 3⟩ := by
  refine ⟨C3_v2_read_errors.1 (fun _ => true) 1 (List.replicate 64 9) [] (by decide) (by decide),
    C3_v2_read_errors.2.1 (fun _ => true) 1 (padTo 64 [1, 0, 0, 0, 2]) [] (by decide) (by decide)
      (by decide),
    C3_v2_read_errors.2.2.1 (fun _ => false) 1 (padTo 64 [1, 0, 0, 0, 1, 0, 0, 0, 17]) []
      (by decide) (by decide) ?_ rfl,
    C3_v2_read_errors.2.2.2.1 1 10 0 [] (List.replicate 64 9) [] (by decide) (by decide),
    C3_v2_read_errors.2.2.2.2.1 1 10 0 [] (padTo 64 [2, 0, 0, 0, 7]) [] (by decide) (by decide)
      (by decide),
    C3_v2_read_errors.2.2.2.2.2.1 1 10 0 [] (padTo 64 [2, 0, 0, 0, 1, 0, 0, 0, 5]) [] (by decide)
      (by decide) (by decide) (by decide),
    C3_v2_read_errors.2.2.2.2.2.2 (fun _ => true) 1 17 (List.replicate 62 3) (by decide)
      (by decide) (by decide) rfl (by decide)⟩
  decide

/-- C4: V2 session lifecycle.  `session_begin` sends the single chunk
`[0x03, 0, …]`, demands a reply beginning `0x03`, and stores the four
device-assigned bytes as the session id; `write` and `read` assert-panic
unless the stored session id is non-zero; `session_end` sends
`[0x04, SID[4], 0, …]`, demands an `0x04` reply, and zeroes the stored id,
after which a further `write` or `read` panics until a new `session_begin`. -/
theorem C4_v2_session_lifecycle :
    ProtocolV2.sessionBeginChunk = 3 :: List.replicate 63 0 ∧
    (∀ resp : List Nat, resp.getD 0 0 ≠ 3 →
      ProtocolV2.session_begin resp = .error .DeviceBadMagic) ∧
    (∀ resp : List Nat, resp.getD 0 0 = 3 →
      ProtocolV2.session_begin resp = .ok (readU32BE (resp.drop 1))) ∧
    (∀ m : ProtoMessage, ProtocolV2.write 0 m = .panic) ∧
    (∀ (sid : Nat) (m : ProtoMessage), sid ≠ 0 →
      ProtocolV2.write sid m = .ok (ProtocolV2.writeChunks sid m)) ∧
    (∀ (kt : Nat → Bool) (s : List (List Nat)), ProtocolV2.read kt 0 s = .panic) ∧
    (∀ sid : Nat, ProtocolV2.sessionEndChunk sid =
      4 :: (writeU32BE sid ++ List.replicate 59 0)) ∧
    (∀ resp : List Nat, ProtocolV2.session_end 0 resp = .panic) ∧
    (∀ (sid : Nat) (resp : List Nat), sid ≠ 0 → resp.getD 0 0 ≠ 4 →
      ProtocolV2.session_end sid resp = .error .DeviceBadMagic) ∧
    (∀ (sid : Nat) (resp : List Nat), sid ≠ 0 → resp.getD 0 0 = 4 →
      ProtocolV2.session_end sid resp = .ok 0) ∧
    (∀ (sid newSid : Nat) (resp : List Nat) (m : ProtoMessage),
      ProtocolV2.session_end sid resp = .ok newSid → ProtocolV2.write newSid m = .panic) := by
  refine ⟨by decide, ?_, ?_, ?_, ?_, ?_, ?_, ?_, ?_, ?_, ?_⟩
  · intro resp h
    simp only [ProtocolV2.session_begin, if_pos h]
  · intro resp h
    simp only [ProtocolV2.session_begin, h, ne_eq, not_true_eq_false, if_false]
  · intro m
    exact if_pos rfl
  · intro sid m h
    simp only [ProtocolV2.write, if_neg h]
  · intro kt s
    rw [ProtocolV2.read.eq_def, if_pos rfl]
  · intro sid
    simp only [ProtocolV2.sessionEndChunk, padTo, List.length_cons, List.length_append,
      length_writeU32BE, List.cons_append]
  · intro resp
    exact if_pos rfl
  · intro sid resp hsid h
    simp only [ProtocolV2.session_end, if_neg hsid, if_pos h]
  · intro sid resp hsid h
    simp only [ProtocolV2.session_end, if_neg hsid, h, ne_eq, not_true_eq_false, if_false]
  · intro sid newSid resp m h
    simp only [ProtocolV2.session_end] at h
    by_cases hsid : sid = 0
    · rw [if_pos hsid] at h
      cases h
    · rw [if_neg hsid] at h
      by_cases hr : resp.getD 0 0 ≠ 4
      · rw [if_pos hr] at h
        cases h
      · rw [if_neg hr] at h
        cases h
        exact if_pos rfl

/-- Witness for C4 at concrete inputs: a `0x03`-reply stores session id 42,
writes and reads panic on session id 0, and after a successful `session_end`
a further write panics. -/
theorem C4_v2_session_lifecycle_witness :
    ProtocolV2.session_begin (padTo 64 [3, 0, 0, 0, 42]) = .ok 42 ∧
    ProtocolV2.session_begin (padTo 64 [9]) = .error .DeviceBadMagic ∧
    ProtocolV2.write 7 ⟨0, []⟩ = .ok (ProtocolV2.writeChunks 7 ⟨0, []⟩) ∧
    ProtocolV2.session_end 7 (padTo 64 [4]) = .ok 0 ∧
    ProtocolV2.session_end 7 (padTo 64 [9]) = .error .DeviceBadMagic ∧
    ProtocolV2.write 0 ⟨0, []⟩ = .panic :=
  ⟨C4_v2_session_lifecycle.2.2.1 (padTo 64 [3, 0, 0, 0, 42]) (by decide),
   C4_v2_session_lifecycle.2.1 (padTo 64 [9]) (by decide),
   C4_v2_session_lifecycle.2.2.2.2.1 7 ⟨0, []⟩ (by decide),
   C4_v2_session_lifecycle.2.2.2.2.2.2.2.2.2.1 7 (padTo 64 [4]) (by decide) (by decide),
   C4_v2_session_lifecycle.2.2.2.2.2.2.2.2.1 7 (padTo 64 [9]) (by decide) (by decide),
   C4_v2_session_lifecycle.2.2.2.2.2.2.2.2.2.2 7 0 (padTo 64 [4]) ⟨0, []⟩
     (C4_v2_session_lifecycle.2.2.2.2.2.2.2.2.2.1 7 (padTo 64 [4]) (by decide) (by decide))⟩

/-- C8: Chunk-size invariant.  Every chunk the V1 and V2 framer write paths
emit is exactly 64 bytes; `HidLink::write_chunk` on a V2-HID link prepends a
single `0x00` report-id byte so exactly 65 bytes reach the wire, while on a
V1-HID link the 64 bytes are written unchanged. -/
theorem C8_chunk_sizes :
    (∀ (m : ProtoMessage) (c : List Nat), c ∈ ProtocolV1.write m → c.length = 64) ∧
    (∀ (sid : Nat) (m : ProtoMessage) (c : List Nat),
      c ∈ ProtocolV2.writeChunks sid m → c.length = 64) ∧
    (∀ c : List Nat, c.length = 64 →
      HidLink.write_chunk .V2 c = some (0 :: c) ∧ (0 :: c).length = 65 ∧
      HidLink.write_chunk .V1 c = some c) := by
  refine ⟨?_, ?_, ?_⟩
  · intro m c hc
    exact chunksV1_length_mem _ _ c (le_refl _) hc
  · intro sid m c hc
    exact writeChunksV2_length_mem sid m c hc
  · intro c hlen
    refine ⟨?_, ?_, ?_⟩
    · simp only [HidLink.write_chunk, if_pos hlen]
    · simp only [List.length_cons, hlen]
    · simp only [HidLink.write_chunk, if_pos hlen]

/-- Witness for C8 at concrete inputs: the single chunk of a V1 write of an
empty message is 64 bytes, the V2-HID wire image of a 64-byte chunk is 65
bytes starting `0x00`, and V1-HID leaves it unchanged. -/
theorem C8_chunk_sizes_witness :
    (padTo 64 [63, 35, 35, 0, 0, 0, 0, 0, 0]).length = 64 ∧
    HidLink.write_chunk .V2 (List.replicate 64 1) = some (0 :: List.replicate 64 1) ∧
    (0 :: List.replicate 64 1).length = 65 ∧
    HidLink.write_chunk .V1 (List.replicate 64 1) = some (List.replicate 64 1) :=
  ⟨C8_chunk_sizes.1 ⟨0, []⟩ (padTo 64 [63, 35, 35, 0, 0, 0, 0, 0, 0])
      (by
        show padTo 64 [63, 35, 35, 0, 0, 0, 0, 0, 0] ∈
          ProtocolV1.chunks [35, 35, 0, 0, 0, 0, 0, 0]
        rw [ProtocolV1.chunks, dif_neg (by decide)]
        simp only [show List.drop 63 [(35 : Nat), 35, 0, 0, 0, 0, 0, 0] = [] from rfl]
        rw [ProtocolV1.chunks, dif_pos rfl]
        simp only [List.mem_singleton]
        decide),
   (C8_chunk_sizes.2.2 (List.replicate 64 1) (by decide)).1,
   (C8_chunk_sizes.2.2 (List.replicate 64 1) (by decide)).2.1,
   (C8_chunk_sizes.2.2 (List.replicate 64 1) (by decide)).2.2⟩

/-- C2 counterexample: a `PassphraseStateRequest` response is *not* exposed as
a distinct variant — `Trezor::call` (here expecting a `Success`) dispatches it
to the `UnexpectedMessageType` error, contradicting the claim that every
response lands in one of six variants including `PassphraseStateRequest`. -/
theorem C2_counterexample :
    Client.dispatch .Success .PassphraseStateRequest =
      .error (.UnexpectedMessageType .PassphraseStateRequest) := rfl

/-- C2 (amended): every response is dispatched into exactly one of the five
variants `Ok`, `Failure`, `ButtonRequest`, `PinMatrixRequest`,
`PassphraseRequest`; a response of any other message type — including
`PassphraseStateRequest` — yields `UnexpectedMessageType`. -/
theorem C2_call_dispatch (expected respType : MessageType) :
    (respType = expected → Client.dispatch expected respType = .ok .Ok) ∧
    (respType ≠ expected → respType = .Failure →
      Client.dispatch expected respType = .ok .Failure) ∧
    (respType ≠ expected → respType = .ButtonRequest →
      Client.dispatch expected respType = .ok .ButtonRequest) ∧
    (respType ≠ expected → respType = .PinMatrixRequest →
      Client.dispatch expected respType = .ok .PinMatrixRequest) ∧
    (respType ≠ expected → respType = .PassphraseRequest →
      Client.dispatch expected respType = .ok .PassphraseRequest) ∧
    (respType ≠ expected → respType ≠ .Failure → respType ≠ .ButtonRequest →
      respType ≠ .PinMatrixRequest → respType ≠ .PassphraseRequest →
      Client.dispatch expected respType = .error (.UnexpectedMessageType respType)) := by
  refine ⟨?_, ?_, ?_, ?_, ?_, ?_⟩
  · intro h
    simp [Client.dispatch, h]
  · intro hne h
    subst h
    simp [Client.dispatch, hne]
  · intro hne h
    subst h
    simp [Client.dispatch, hne]
  · intro hne h
    subst h
    simp [Client.dispatch, hne]
  · intro hne h
    subst h
    simp [Client.dispatch, hne]
  · intro hne h1 h2 h3 h4
    cases respType <;> simp_all [Client.dispatch]

/-- Witness for C2 at concrete inputs: a `Features` reply to an expected
`Features` is `Ok`; a `PassphraseStateRequest` reply to an expected `Success`
is the `UnexpectedMessageType` error. -/
theorem C2_call_dispatch_witness :
    Client.dispatch .Features .Features = .ok .Ok ∧
    Client.dispatch .Success .PassphraseStateRequest =
      .error (.UnexpectedMessageType .PassphraseStateRequest) :=
  ⟨(C2_call_dispatch .Features .Features).1 rfl,
   (C2_call_dispatch .Success .PassphraseStateRequest).2.2.2.2.2 (by decide) (by decide)
     (by decide) (by decide) (by decide)⟩

/-- C5: Response projections.  `ok()` succeeds exactly on the `Ok` variant,
and each of `button_request()`, `pin_matrix_request()`,
`passphrase_request()` succeeds exactly on its matching variant; any
projection of a `Failure` yields `FailureResponse` with the device's code and
message; a projection applied to a non-matching interaction variant yields
`UnexpectedInteractionRequest` of that interaction's kind. -/
theorem C5_response_projections (T : Type) (rType : MessageType) (r : TrezorResponse T) :
    (∀ v, r.ok = .ok v ↔ r = .Ok v) ∧
    (∀ m, r.button_request rType = .ok m ↔ r = .ButtonRequest m) ∧
    (∀ m, r.pin_matrix_request rType = .ok m ↔ r = .PinMatrixRequest m) ∧
    (∀ m, r.passphrase_request rType = .ok m ↔ r = .PassphraseRequest m) ∧
    (∀ f, r = .Failure f →
      r.ok = .error (.FailureResponse f) ∧
      r.button_request rType = .error (.FailureResponse f) ∧
      r.pin_matrix_request rType = .error (.FailureResponse f) ∧
      r.passphrase_request rType = .error (.FailureResponse f)) ∧
    (∀ m, r = .ButtonRequest m →
      r.ok = .error (.UnexpectedInteractionRequest .Button) ∧
      r.pin_matrix_request rType = .error (.UnexpectedInteractionRequest .Button) ∧
      r.passphrase_request rType = .error (.UnexpectedInteractionRequest .Button)) ∧
    (∀ m, r = .PinMatrixRequest m →
      r.ok = .error (.UnexpectedInteractionRequest .PinMatrix) ∧
      r.button_request rType = .error (.UnexpectedInteractionRequest .PinMatrix) ∧
      r.passphrase_request rType = .error (.UnexpectedInteractionRequest .PinMatrix)) ∧
    (∀ m, r = .PassphraseRequest m →
      r.ok = .error (.UnexpectedInteractionRequest .Passphrase) ∧
      r.button_request rType = .error (.UnexpectedInteractionRequest .Passphrase) ∧
      r.pin_matrix_request rType = .error (.UnexpectedInteractionRequest .Passphrase)) := by
  cases r <;>
    simp [TrezorResponse.ok, TrezorResponse.button_request, TrezorResponse.pin_matrix_request,
      TrezorResponse.passphrase_request]

/-- Witness for C5 at concrete inputs: `ok()` on an `Ok` value succeeds;
every projection of a concrete `Failure` yields `FailureResponse`; and
`button_request()` of a `PinMatrixRequest` yields
`UnexpectedInteractionRequest(PinMatrix)`. -/
theorem C5_response_projections_witness :
    (TrezorResponse.Ok (T := Nat) 5).ok = .ok 5 ∧
    (TrezorResponse.Failure (T := Nat) ⟨13, "failed"⟩).ok =
      .error (.FailureResponse ⟨13, "failed"⟩) ∧
    (TrezorResponse.Failure (T := Nat) ⟨13, "failed"⟩).button_request .Success =
      .error (.FailureResponse ⟨13, "failed"⟩) ∧
    (TrezorResponse.PinMatrixRequest (T := Nat) ⟨2⟩).button_request .Success =
      .error (.UnexpectedInteractionRequest .PinMatrix) :=
  ⟨((C5_response_projections Nat .Success (.Ok 5)).1 5).mpr rfl,
   ((C5_response_projections Nat .Success (.Failure ⟨13, "failed"⟩)).2.2.2.2.1 ⟨13, "failed"⟩
     rfl).1,
   ((C5_response_projections Nat .Success (.Failure ⟨13, "failed"⟩)).2.2.2.2.1 ⟨13, "failed"⟩
     rfl).2.1,
   ((C5_response_projections Nat .Success (.PinMatrixRequest ⟨2⟩)).2.2.2.2.2.2.1 ⟨2⟩
     rfl).2.1⟩

/-- When the previous request was not `TXFINISHED`, `ack_msg` never hits its
head assertion. -/
theorem ack_msg_ne_assertPanic (req : TxRequestMsg) (ack : TxAckMsg) (respType : MessageType)
    (h : SignTxProgress.finished req = false) :
    SignTxProgress.ack_msg req ack respType ≠ CRes.assertPanic := by
  simp only [SignTxProgress.ack_msg, h, Bool.false_eq_true, if_false]
  cases hd : Client.dispatch .TxRequest respType <;> simp

/-- C6: SignTx terminal state.  `finished()` is true exactly when the last
`TxRequest` carries `TXFINISHED`; while it is false the head assertion of
`ack_msg`/`ack_psbt` is never triggered, and once it is true neither method
completes normally (both hit their head assertion), so no further ack can be
sent through the progress object. -/
theorem C6_signtx_finished_guard (req : TxRequestMsg) :
    (SignTxProgress.finished req = true ↔ req.request_type = .TXFINISHED) ∧
    (SignTxProgress.finished req = false → ∀ (ack : TxAckMsg) (respType : MessageType),
      SignTxProgress.ack_msg req ack respType ≠ .assertPanic) ∧
    (SignTxProgress.finished req = false →
      ∀ (a : Script → Network → Option String) (psbt : Psbt) (network : Network)
        (respType : MessageType),
        SignTxProgress.ack_psbt a req psbt network respType ≠ .assertPanic) ∧
    (SignTxProgress.finished req = true → ∀ (ack : TxAckMsg) (respType : MessageType),
      SignTxProgress.ack_msg req ack respType = .assertPanic) ∧
    (SignTxProgress.finished req = true →
      ∀ (a : Script → Network → Option String) (psbt : Psbt) (network : Network)
        (respType : MessageType),
        SignTxProgress.ack_psbt a req psbt network respType = .assertPanic) := by
  refine ⟨by simp [SignTxProgress.finished], ?_, ?_, ?_, ?_⟩
  · intro h ack respType
    exact ack_msg_ne_assertPanic req ack respType h
  · intro h a psbt network respType
    have hty : req.request_type ≠ .TXFINISHED := by
      simpa [SignTxProgress.finished] using h
    simp only [SignTxProgress.ack_psbt, if_neg hty]
    cases hreq : req.request_type
    · cases ha : ack_input_request req psbt
      · simp [ha]
      · simp only [ha]
        exact ack_msg_ne_assertPanic req _ respType h
    · cases ha : ack_output_request a req psbt network
      · simp [ha]
      · simp only [ha]
        exact ack_msg_ne_assertPanic req _ respType h
    · cases ha : ack_meta_request req psbt
      · simp [ha]
      · simp only [ha]
        exact ack_msg_ne_assertPanic req _ respType h
    · simp
    · exact absurd hreq hty
  · intro h ack respType
    have hty : req.request_type = .TXFINISHED := by
      simpa [SignTxProgress.finished] using h
    simp only [SignTxProgress.ack_msg, SignTxProgress.finished, hty]
    rw [if_pos (by decide)]
  · intro h a psbt network respType
    have hty : req.request_type = .TXFINISHED := by
      simpa [SignTxProgress.finished] using h
    simp [SignTxProgress.ack_psbt, hty]

/-- Witness for C6 at concrete inputs: on a `TXFINISHED` request `finished()`
is true and both acks panic; on a `TXINPUT` request neither ack hits the head
assertion. -/
theorem C6_signtx_finished_guard_witness :
    (SignTxProgress.finished ⟨.TXFINISHED, none, none⟩ = true ↔
      TxRequestMsg.request_type ⟨.TXFINISHED, none, none⟩ = .TXFINISHED) ∧
    SignTxProgress.ack_msg ⟨.TXFINISHED, none, none⟩ ⟨TxAckTransactionType.empty⟩ .TxRequest =
      .assertPanic ∧
    SignTxProgress.ack_psbt (fun _ _ => none) ⟨.TXFINISHED, none, none⟩ ⟨⟨1, 0, [], []⟩, [], []⟩
      .Bitcoin .TxRequest = .assertPanic ∧
    SignTxProgress.ack_msg ⟨.TXINPUT, none, none⟩ ⟨TxAckTransactionType.empty⟩ .TxRequest ≠
      .assertPanic ∧
    SignTxProgress.ack_psbt (fun _ _ => none) ⟨.TXINPUT, none, none⟩ ⟨⟨1, 0, [], []⟩, [], []⟩
      .Bitcoin .TxRequest ≠ .assertPanic :=
  ⟨(C6_signtx_finished_guard ⟨.TXFINISHED, none, none⟩).1,
   (C6_signtx_finished_guard ⟨.TXFINISHED, none, none⟩).2.2.2.1 (by decide)
     ⟨TxAckTransactionType.empty⟩ .TxRequest,
   (C6_signtx_finished_guard ⟨.TXFINISHED, none, none⟩).2.2.2.2 (by decide) (fun _ _ => none)
     ⟨⟨1, 0, [], []⟩, [], []⟩ .Bitcoin .TxRequest,
   (C6_signtx_finished_guard ⟨.TXINPUT, none, none⟩).2.1 (by decide)
     ⟨TxAckTransactionType.empty⟩ .TxRequest,
   (C6_signtx_finished_guard ⟨.TXINPUT, none, none⟩).2.2.1 (by decide) (fun _ _ => none)
     ⟨⟨1, 0, [], []⟩, [], []⟩ .Bitcoin .TxRequest⟩

/-- C7: Input-ack amount.  For a `TXINPUT` request that refers to the signing
transaction (no `tx_hash`) with a request index valid for both the unsigned
transaction and the PSBT input list, the ack's `amount` is
`witness_utxo.value` when the PSBT input has a `witness_utxo`, else
`non_witness_utxo.output[vout].value` when that output exists, and otherwise
`ack_psbt` fails with `InvalidPsbt` without sending anything. -/
theorem C7_input_amount (req : TxRequestMsg) (psbt : Psbt) (d : TxRequestDetails) (i : Nat)
    (input : TxIn) (pin : PsbtInput)
    (hty : req.request_type = .TXINPUT)
    (hdet : req.details = some d) (hidx : d.request_index = some i) (hhash : d.tx_hash = none)
    (hinput : psbt.unsigned_tx.input[i]? = some input)
    (hpin : psbt.inputs[i]? = some pin) :
    (∀ utxo, pin.witness_utxo = some utxo →
      ∃ ti, ack_input_request req psbt = .ok (mkInputAck ti) ∧
        ti.amount = some utxo.value) ∧
    (∀ tx txout, pin.witness_utxo = none → pin.non_witness_utxo = some tx →
      tx.output[input.previous_output.vout]? = some txout →
      ∃ ti, ack_input_request req psbt = .ok (mkInputAck ti) ∧
        ti.amount = some txout.value) ∧
    (∀ tx, pin.witness_utxo = none → pin.non_witness_utxo = some tx →
      tx.output[input.previous_output.vout]? = none →
      ack_input_request req psbt =
        .error (.InvalidPsbt ("invalid utxo for PSBT input " ++ toString i)) ∧
      ∀ (a : Script → Network → Option String) (network : Network) (respType : MessageType),
        SignTxProgress.ack_psbt a req psbt network respType =
          .error (.InvalidPsbt ("invalid utxo for PSBT input " ++ toString i))) ∧
    (pin.witness_utxo = none → pin.non_witness_utxo = none →
      ack_input_request req psbt =
        .error (.InvalidPsbt ("no utxo for PSBT input " ++ toString i)) ∧
      ∀ (a : Script → Network → Option String) (network : Network) (respType : MessageType),
        SignTxProgress.ack_psbt a req psbt network respType =
          .error (.InvalidPsbt ("no utxo for PSBT input " ++ toString i))) := by
  have hfin : req.request_type ≠ TxRequestType.TXFINISHED := by
    rw [hty]
    decide
  refine ⟨?_, ?_, ?_, ?_⟩
  · intro utxo hw
    simp only [ack_input_request, hdet, hidx, hhash, hinput, hpin, hw]
    exact ⟨_, rfl, rfl⟩
  · intro tx txout hw hnw hout
    simp only [ack_input_request, hdet, hidx, hhash, hinput, hpin, hw, hnw, hout]
    exact ⟨_, rfl, rfl⟩
  · intro tx hw hnw hout
    have hack : ack_input_request req psbt =
        .error (.InvalidPsbt ("invalid utxo for PSBT input " ++ toString i)) := by
      simp only [ack_input_request, hdet, hidx, hhash, hinput, hpin, hw, hnw, hout]
    refine ⟨hack, ?_⟩
    intro a network respType
    simp only [SignTxProgress.ack_psbt, if_neg hfin, hty, hack]
    rw [if_neg (by decide)]
  · intro hw hnw
    have hack : ack_input_request req psbt =
        .error (.InvalidPsbt ("no utxo for PSBT input " ++ toString i)) := by
      simp only [ack_input_request, hdet, hidx, hhash, hinput, hpin, hw, hnw]
    refine ⟨hack, ?_⟩
    intro a network respType
    simp only [SignTxProgress.ack_psbt, if_neg hfin, hty, hack]
    rw [if_neg (by decide)]

/-- Witness for C7 at a concrete one-input PSBT: with a `witness_utxo` of
value 50000 the ack carries `amount = 50000`; with no utxo data at all the
ack construction fails with `InvalidPsbt` and `ack_psbt` surfaces it. -/
theorem C7_input_amount_witness :
    (∃ ti, ack_input_request ⟨.TXINPUT, some ⟨some 0, none⟩, none⟩
        ⟨⟨1, 0, [⟨⟨List.replicate 32 9, 0⟩, ⟨[], false, false, false, false, false⟩, 4294967295⟩],
          []⟩, [⟨none, some ⟨50000, ⟨[], false, false, false, false, false⟩⟩, [], none, none⟩],
          []⟩ = .ok (mkInputAck ti) ∧
      ti.amount = some 50000) ∧
    SignTxProgress.ack_psbt (fun _ _ => none) ⟨.TXINPUT, some ⟨some 0, none⟩, none⟩
      ⟨⟨1, 0, [⟨⟨List.replicate 32 9, 0⟩, ⟨[], false, false, false, false, false⟩, 4294967295⟩],
        []⟩, [⟨none, none, [], none, none⟩], []⟩ .Bitcoin .TxRequest =
      .error (.InvalidPsbt ("no utxo for PSBT input " ++ toString 0)) :=
  ⟨(C7_input_amount ⟨.TXINPUT, some ⟨some 0, none⟩, none⟩
      ⟨⟨1, 0, [⟨⟨List.replicate 32 9, 0⟩, ⟨[], false, false, false, false, false⟩, 4294967295⟩],
        []⟩, [⟨none, some ⟨50000, ⟨[], false, false, false, false, false⟩⟩, [], none, none⟩],
        []⟩ ⟨some 0, none⟩ 0
      ⟨⟨List.replicate 32 9, 0⟩, ⟨[], false, false, false, false, false⟩, 4294967295⟩
      ⟨none, some ⟨50000, ⟨[], false, false, false, false, false⟩⟩, [], none, none⟩
      rfl rfl rfl rfl rfl rfl).1 ⟨50000, ⟨[], false, false, false, false, false⟩⟩ rfl,
   ((C7_input_amount ⟨.TXINPUT, some ⟨some 0, none⟩, none⟩
      ⟨⟨1, 0, [⟨⟨List.replicate 32 9, 0⟩, ⟨[], false, false, false, false, false⟩, 4294967295⟩],
        []⟩, [⟨none, none, [], none, none⟩], []⟩ ⟨some 0, none⟩ 0
      ⟨⟨List.replicate 32 9, 0⟩, ⟨[], false, false, false, false, false⟩, 4294967295⟩
      ⟨none, none, [], none, none⟩
      rfl rfl rfl rfl rfl rfl).2.2.2 rfl rfl).2 (fun _ _ => none) .Bitcoin .TxRequest⟩

/-- C9: Entropy ack.  `ack_entropy(b)` sends exactly one `EntropyAck` message
carrying `b` and proceeds (dispatching the device's next response) iff `b`
has length 32; for any other length it returns `InvalidEntropy` and writes
nothing to the transport. -/
theorem C9_ack_entropy (entropy : List Nat) (respType : MessageType) :
    (entropy.length = 32 →
      EntropyRequest.ack_entropy entropy respType =
        ([(.EntropyAck, entropy)], Client.dispatch .Success respType)) ∧
    (entropy.length ≠ 32 →
      EntropyRequest.ack_entropy entropy respType = ([], .error .InvalidEntropy)) := by
  refine ⟨?_, ?_⟩
  · intro h
    simp [EntropyRequest.ack_entropy, h]
  · intro h
    simp [EntropyRequest.ack_entropy, h]

/-- Witness for C9 at concrete inputs: 32 zero bytes are acked with one
`EntropyAck`, 31 zero bytes yield `InvalidEntropy` with nothing written. -/
theorem C9_ack_entropy_witness :
    EntropyRequest.ack_entropy (List.replicate 32 0) .Success =
      ([(.EntropyAck, List.replicate 32 0)], Client.dispatch .Success .Success) ∧
    EntropyRequest.ack_entropy (List.replicate 31 0) .Success =
      ([], .error .InvalidEntropy) :=
  ⟨(C9_ack_entropy (List.replicate 32 0) .Success).1 (by decide),
   (C9_ack_entropy (List.replicate 31 0) .Success).2 (by decide)⟩

/-- C10: Recoverable-signature parsing.  A device signature parses only when
it is exactly 65 bytes (anything else is `InvalidSignature`); for 65 bytes
the recovery id is `sig[0] - 31` when `sig[0] ≥ 31` and `sig[0] - 27`
otherwise (u8 arithmetic), accepted only when it lands in 0..3, and the
remaining 64 bytes become the compact signature. -/
theorem C10_parse_recoverable_signature :
    (∀ sig : List Nat, sig.length ≠ 65 →
      parse_recoverable_signature sig = .error .InvalidSignature) ∧
    (∀ sig : List Nat, sig.length = 65 → 31 ≤ sig.headD 0 → sig.headD 0 ≤ 34 →
      parse_recoverable_signature sig = .ok ⟨sig.headD 0 - 31, sig.drop 1⟩) ∧
    (∀ sig : List Nat, sig.length = 65 → 27 ≤ sig.headD 0 → sig.headD 0 < 31 →
      parse_recoverable_signature sig = .ok ⟨sig.headD 0 - 27, sig.drop 1⟩) ∧
    (∀ sig : List Nat, sig.length = 65 → 35 ≤ sig.headD 0 →
      parse_recoverable_signature sig = .error .InvalidRecoveryId) ∧
    (∀ sig : List Nat, sig.length = 65 → sig.headD 0 < 27 → sig.headD 0 < 256 →
      parse_recoverable_signature sig = .error .InvalidRecoveryId) := by
  refine ⟨?_, ?_, ?_, ?_, ?_⟩
  · intro sig h
    rw [parse_recoverable_signature, if_pos h]
  · intro sig hlen h31 h34
    have h1 : ¬sig.length ≠ 65 := by omega
    have h3 : sig.headD 0 - 31 ≤ 3 := by omega
    have h4 : (sig.drop 1).length = 64 := by simp [List.length_drop, hlen]
    rw [parse_recoverable_signature]
    simp only [if_neg h1, if_pos h31, RecoveryId.from_i32, if_pos h3,
      RecoverableSignature.from_compact, if_pos h4]
  · intro sig hlen h27 h31
    have h1 : ¬sig.length ≠ 65 := by omega
    have hn31 : ¬31 ≤ sig.headD 0 := by omega
    have hmod : (sig.headD 0 + 256 - 27) % 256 = sig.headD 0 - 27 := by omega
    have h3 : sig.headD 0 - 27 ≤ 3 := by omega
    have h4 : (sig.drop 1).length = 64 := by simp [List.length_drop, hlen]
    rw [parse_recoverable_signature]
    simp only [if_neg h1, if_neg hn31, hmod, RecoveryId.from_i32, if_pos h3,
      RecoverableSignature.from_compact, if_pos h4]
  · intro sig hlen h35
    have h1 : ¬sig.length ≠ 65 := by omega
    have h31 : 31 ≤ sig.headD 0 := by omega
    have h3 : ¬sig.headD 0 - 31 ≤ 3 := by omega
    rw [parse_recoverable_signature]
    simp only [if_neg h1, if_pos h31, RecoveryId.from_i32, if_neg h3]
  · intro sig hlen h27 h256
    have h1 : ¬sig.length ≠ 65 := by omega
    have hn31 : ¬31 ≤ sig.headD 0 := by omega
    have hmod : (sig.headD 0 + 256 - 27) % 256 = sig.headD 0 + 229 := by omega
    have h3 : ¬sig.headD 0 + 229 ≤ 3 := by omega
    rw [parse_recoverable_signature]
    simp only [if_neg h1, if_neg hn31, hmod, RecoveryId.from_i32, if_neg h3]

/-- Witness for C10 at concrete inputs: a 64-byte signature is rejected; a
65-byte signature with first byte 31 parses with recovery id 0; first byte
27 gives recovery id 0 through the low branch; first byte 35 is rejected. -/
theorem C10_parse_recoverable_signature_witness :
    parse_recoverable_signature (List.replicate 64 2) = .error .InvalidSignature ∧
    parse_recoverable_signature (31 :: List.replicate 64 2) =
      .ok ⟨0, List.replicate 64 2⟩ ∧
    parse_recoverable_signature (28 :: List.replicate 64 2) =
      .ok ⟨1, List.replicate 64 2⟩ ∧
    parse_recoverable_signature (35 :: List.replicate 64 2) = .error .InvalidRecoveryId ∧
    parse_recoverable_signature (0 :: List.replicate 64 2) = .error .InvalidRecoveryId :=
  ⟨C10_parse_recoverable_signature.1 (List.replicate 64 2) (by decide),
   C10_parse_recoverable_signature.2.1 (31 :: List.replicate 64 2) (by decide) (by decide)
     (by decide),
   C10_parse_recoverable_signature.2.2.1 (28 :: List.replicate 64 2) (by decide) (by decide)
     (by decide),
   C10_parse_recoverable_signature.2.2.2.1 (35 :: List.replicate 64 2) (by decide) (by decide),
   C10_parse_recoverable_signature.2.2.2.2 (0 :: List.replicate 64 2) (by decide) (by decide)
     (by decide)⟩

end Trezor
